import Mathlib

/-!
# voxel-experiments: the Direct3D 11 bootstrap of `src/main.cpp`

A shallow embedding of `src/main.cpp`.  The program is a straight line of calls
into SDL2, the C runtime, Direct3D 11 / DXGI and the HLSL compiler, followed by
an unbounded render loop.  Every call the source makes into one of those
libraries is recorded, with its arguments, in a call trace; what the libraries
answer (result codes, file contents, compiled blobs, pending events) is the
environment, an explicit parameter of the embedding.

Conventions.

* `u32` values are `Nat` below `2 ^ 32`; conversions that can lose information
  (`size_t` to `u32`, `u32` to `int`, `u32` to `f32`) are explicit functions.
* An `f32` is represented by the exact number it holds.  Every `f32` of this
  program holds an integer (the literals `-1.0`, `0.0`, `1.0` and conversions
  of `u32` values), so the carrier is `Int`.
* The embedding is of the build with assertions enabled (`NDEBUG` undefined):
  `CHECK(X)` is `assert(X == S_OK)`, which evaluates `X`.  Target is x64, so
  `size_t` is 64 bits wide.
* Enumerators and flag values are those of the Windows SDK and SDL2 headers.
* A buffer object is identified by the descriptor and the initial data it was
  created from, so that the calls binding a buffer show which buffer is bound.
-/

namespace VoxelExperiments

/-! ## Machine types (lines 12-21) -/

/-- An `f32`, represented by the exact (integer) value it holds. -/
abbrev f32 := Int

/-- The `sizeof` of `f32` and of `u32`, in bytes. -/
def sizeof_f32 : Nat := 4

/-- The `sizeof` of `u32`, in bytes. -/
def sizeof_u32 : Nat := 4

/-- Conversion of an unsigned integer to `u32`: reduction modulo `2 ^ 32`. -/
def to_u32 (n : Nat) : Nat := n % 2 ^ 32

/-- Multiplication in `size_t` (64 bits): `data.size() * sizeof(T)`. -/
def size_t_mul (a b : Nat) : Nat := (a * b) % 2 ^ 64

/-- Conversion of a `u32` to `int` (32-bit two's complement). -/
def to_int (n : Nat) : Int :=
  if n % 2 ^ 32 < 2 ^ 31 then ((n % 2 ^ 32 : Nat) : Int)
  else ((n % 2 ^ 32 : Nat) : Int) - 2 ^ 32

/-- Number of low bits a `u32` loses when it is stored in the 24-bit
significand of an `f32`: `0` below `2 ^ 24`, else `bit length - 24`. -/
def f32_shift : Nat → Nat → Nat
  | 0, _ => 0
  | fuel + 1, n => if n < 2 ^ 24 then 0 else 1 + f32_shift fuel (n / 2)

/-- The conversion `static_cast<f32>(n)` of a `u32`: `n` rounded to 24
significant bits, ties to even (the default rounding mode). -/
def static_cast_f32 (n : Nat) : f32 :=
  let e := f32_shift 32 n
  let q := n / 2 ^ e
  let r := n % 2 ^ e
  let q1 := if 2 ^ e < 2 * r ∨ (2 * r = 2 ^ e ∧ q % 2 = 1) then q + 1 else q
  ((q1 * 2 ^ e : Nat) : Int)

/-- A `HRESULT`: a signed 32-bit result code. -/
abbrev HRESULT := Int

/-- The `S_OK` result code. -/
def S_OK : HRESULT := 0

/-- The `FAILED` test of a result code: the sign bit is set. -/
def FAILED (hr : HRESULT) : Bool := decide (hr < 0)

/-- The `SUCCEEDED` test of a result code. -/
def SUCCEEDED (hr : HRESULT) : Bool := decide (0 ≤ hr)

/-- The `EXIT_FAILURE` status of the C runtime. -/
def EXIT_FAILURE : Int := 1

/-! ## Direct3D 11 / DXGI / SDL2 enumerators and descriptors -/

/-- The `D3D11_USAGE` enumeration. -/
inductive D3D11_USAGE where
  | DEFAULT
  | IMMUTABLE
  | DYNAMIC
  | STAGING
  deriving DecidableEq, Repr

/-- The `D3D11_CPU_ACCESS_FLAG` enumeration, by numeric value (an unscoped
enumeration: `0` and combinations of flags are values of the type). -/
abbrev D3D11_CPU_ACCESS_FLAG := Nat

/-- The flag `D3D11_CPU_ACCESS_WRITE`. -/
def D3D11_CPU_ACCESS_WRITE : D3D11_CPU_ACCESS_FLAG := 0x10000
/-- The flag `D3D11_CPU_ACCESS_READ`. -/
def D3D11_CPU_ACCESS_READ : D3D11_CPU_ACCESS_FLAG := 0x20000

/-- The `D3D11_RESOURCE_MISC_FLAG` enumeration, by numeric value. -/
abbrev D3D11_RESOURCE_MISC_FLAG := Nat

/-- The flag `D3D11_BIND_VERTEX_BUFFER`. -/
def D3D11_BIND_VERTEX_BUFFER : Nat := 0x1
/-- The flag `D3D11_BIND_INDEX_BUFFER`. -/
def D3D11_BIND_INDEX_BUFFER : Nat := 0x2
/-- The flag `D3D11_BIND_CONSTANT_BUFFER`. -/
def D3D11_BIND_CONSTANT_BUFFER : Nat := 0x4
/-- The flag `D3D11_BIND_DEPTH_STENCIL`. -/
def D3D11_BIND_DEPTH_STENCIL : Nat := 0x40
/-- The flag `D3D11_CREATE_DEVICE_DEBUG`. -/
def D3D11_CREATE_DEVICE_DEBUG : Nat := 0x2
/-- The flag `D3D11_CLEAR_DEPTH`. -/
def D3D11_CLEAR_DEPTH : Nat := 0x1
/-- The flag `D3DCOMPILE_ENABLE_STRICTNESS`. -/
def D3DCOMPILE_ENABLE_STRICTNESS : Nat := 0x800
/-- The flag `D3DCOMPILE_DEBUG`. -/
def D3DCOMPILE_DEBUG : Nat := 0x1
/-- The flag `DXGI_USAGE_RENDER_TARGET_OUTPUT`. -/
def DXGI_USAGE_RENDER_TARGET_OUTPUT : Nat := 0x20
/-- The constant `D3D11_SDK_VERSION`. -/
def D3D11_SDK_VERSION : Nat := 7
/-- The feature level `D3D_FEATURE_LEVEL_11_1`. -/
def D3D_FEATURE_LEVEL_11_1 : Nat := 0xb100
/-- The constant `SDL_WINDOWPOS_UNDEFINED`. -/
def SDL_WINDOWPOS_UNDEFINED : Int := 0x1FFF0000
/-- The flag `SDL_WINDOW_SHOWN`. -/
def SDL_WINDOW_SHOWN : Nat := 0x4
/-- The event type `SDL_QUIT`. -/
def SDL_QUIT : Nat := 0x100

/-- The `DXGI_FORMAT` enumerators the program uses. -/
inductive DXGI_FORMAT where
  | R32G32B32A32_FLOAT
  | R8G8B8A8_UNORM
  | R32_UINT
  | D24_UNORM_S8_UINT
  deriving DecidableEq, Repr

/-- Bytes taken by one element of a format. -/
def DXGI_FORMAT.bytes : DXGI_FORMAT → Nat
  | .R32G32B32A32_FLOAT => 16
  | .R8G8B8A8_UNORM => 4
  | .R32_UINT => 4
  | .D24_UNORM_S8_UINT => 4

/-- The `D3D11_BUFFER_DESC` descriptor (all fields). -/
structure D3D11_BUFFER_DESC where
  ByteWidth : Nat
  Usage : D3D11_USAGE
  BindFlags : Nat
  CPUAccessFlags : Nat
  MiscFlags : Nat
  StructureByteStride : Nat
  deriving DecidableEq, Repr

/-- The `DXGI_RATIONAL` structure. -/
structure DXGI_RATIONAL where
  Numerator : Nat
  Denominator : Nat
  deriving DecidableEq, Repr

/-- The `DXGI_MODE_DESC` structure. -/
structure DXGI_MODE_DESC where
  Width : Nat
  Height : Nat
  RefreshRate : DXGI_RATIONAL
  Format : DXGI_FORMAT
  ScanlineOrdering : Nat
  Scaling : Nat
  deriving DecidableEq, Repr

/-- The `DXGI_SAMPLE_DESC` structure. -/
structure DXGI_SAMPLE_DESC where
  Count : Nat
  Quality : Nat
  deriving DecidableEq, Repr

/-- The `DXGI_SWAP_CHAIN_DESC` descriptor. -/
structure DXGI_SWAP_CHAIN_DESC where
  BufferDesc : DXGI_MODE_DESC
  SampleDesc : DXGI_SAMPLE_DESC
  BufferUsage : Nat
  BufferCount : Nat
  OutputWindow : Nat
  Windowed : Bool
  SwapEffect : Nat
  Flags : Nat
  deriving DecidableEq, Repr

/-- The `D3D11_TEXTURE2D_DESC` descriptor. -/
structure D3D11_TEXTURE2D_DESC where
  Width : Nat
  Height : Nat
  MipLevels : Nat
  ArraySize : Nat
  Format : DXGI_FORMAT
  SampleDesc : DXGI_SAMPLE_DESC
  Usage : D3D11_USAGE
  BindFlags : Nat
  CPUAccessFlags : Nat
  MiscFlags : Nat
  deriving DecidableEq, Repr

/-- The `D3D11_VIEWPORT` structure. -/
structure D3D11_VIEWPORT where
  TopLeftX : f32
  TopLeftY : f32
  Width : f32
  Height : f32
  MinDepth : f32
  MaxDepth : f32
  deriving DecidableEq, Repr

/-- The fill mode `D3D11_FILL_SOLID`. -/
def D3D11_FILL_SOLID : Nat := 3
/-- The cull mode `D3D11_CULL_NONE`. -/
def D3D11_CULL_NONE : Nat := 1
/-- The topology `D3D11_PRIMITIVE_TOPOLOGY_TRIANGLELIST`. -/
def D3D11_PRIMITIVE_TOPOLOGY_TRIANGLELIST : Nat := 4
/-- The input class `D3D11_INPUT_PER_VERTEX_DATA`. -/
def D3D11_INPUT_PER_VERTEX_DATA : Nat := 0
/-- The driver type `D3D_DRIVER_TYPE_HARDWARE`. -/
def D3D_DRIVER_TYPE_HARDWARE : Nat := 1
/-- The constant `DXGI_MODE_SCANLINE_ORDER_UNSPECIFIED`. -/
def DXGI_MODE_SCANLINE_ORDER_UNSPECIFIED : Nat := 0
/-- The constant `DXGI_MODE_SCALING_UNSPECIFIED`. -/
def DXGI_MODE_SCALING_UNSPECIFIED : Nat := 0
/-- The swap effect `DXGI_SWAP_EFFECT_DISCARD`. -/
def DXGI_SWAP_EFFECT_DISCARD : Nat := 0

/-- The `D3D11_RASTERIZER_DESC` descriptor; the fields the source does not
name are zero-initialised. -/
structure D3D11_RASTERIZER_DESC where
  FillMode : Nat
  CullMode : Nat
  FrontCounterClockwise : Bool
  DepthBias : Int := 0
  DepthBiasClamp : f32 := 0
  SlopeScaledDepthBias : f32 := 0
  DepthClipEnable : Bool := false
  ScissorEnable : Bool := false
  MultisampleEnable : Bool := false
  AntialiasedLineEnable : Bool := false
  deriving DecidableEq, Repr

/-- The `D3D11_INPUT_ELEMENT_DESC` descriptor. -/
structure D3D11_INPUT_ELEMENT_DESC where
  SemanticName : String
  SemanticIndex : Nat
  Format : DXGI_FORMAT
  InputSlot : Nat
  AlignedByteOffset : Nat
  InputSlotClass : Nat
  InstanceDataStepRate : Nat
  deriving DecidableEq, Repr

/-- A compiled blob: its bytes. -/
abbrev Blob := List Nat

/-- The array a `pSysMem` pointer refers to: its elements, in order, by
element type (`f32`, `u32`, or plain bytes). -/
inductive SysMem where
  | f32s (values : List f32)
  | u32s (values : List Nat)
  | u8s (bytes : List Nat)
  deriving DecidableEq, Repr

/-- The `D3D11_SUBRESOURCE_DATA` structure; the fields the source does not
name are zero-initialised. -/
structure D3D11_SUBRESOURCE_DATA where
  pSysMem : SysMem
  SysMemPitch : Nat := 0
  SysMemSlicePitch : Nat := 0
  deriving DecidableEq, Repr

/-- An `ID3D11Buffer` object, identified by the descriptor and the initial
data it was created from (the program never writes to a buffer afterwards). -/
structure ID3D11Buffer where
  desc : D3D11_BUFFER_DESC
  initial : D3D11_SUBRESOURCE_DATA
  deriving DecidableEq, Repr

/-- Element types of a `std::vector<T>` handed to the buffer factory: the
array that `(u8 *)data.data()` points to. -/
class Storable (T : Type) where
  mem : List T → SysMem

instance : Storable f32 := ⟨SysMem.f32s⟩

instance : Storable Nat := ⟨SysMem.u32s⟩

/-- An `SDL_Event`, by its `type` field. -/
structure SDL_Event where
  type : Nat
  deriving DecidableEq, Repr

/-! ## Call traces -/

/-- One call of the program into SDL2, the C runtime, Direct3D 11, DXGI or the
HLSL compiler, with the arguments the source passes. -/
inductive Call where
  | SDL_CreateWindow (title : String) (x y w h : Int) (flags : Nat)
  | SDL_DestroyWindow (sdl_window : Option Nat)
  | SDL_GetWindowWMInfo (sdl_window : Option Nat)
  | SDL_PollEvent (returned : Option SDL_Event)
  | fopen (file mode : String)
  | fseek_end
  | ftell
  | rewind
  | fread (size count : Nat)
  | fclose
  | printf (text : String)
  | D3D11CreateDevice (driver_type flags : Nat) (levels : List Nat) (sdk_version : Nat)
  | QueryInterface_IDXGIDevice
  | GetParent_IDXGIAdapter
  | GetParent_IDXGIFactory
  | CreateSwapChain (desc : DXGI_SWAP_CHAIN_DESC)
  | GetBuffer (buffer : Nat)
  | CreateRenderTargetView
  | CreateTexture2D (desc : D3D11_TEXTURE2D_DESC)
  | CreateDepthStencilView
  | OMSetRenderTargets (num_views : Nat)
  | RSSetViewports (num_viewports : Nat) (viewport : D3D11_VIEWPORT)
  | CreateRasterizerState (desc : D3D11_RASTERIZER_DESC)
  | RSSetState
  | CreateBuffer (desc : D3D11_BUFFER_DESC) (subresource_data : D3D11_SUBRESOURCE_DATA)
  | D3DCompile (src entry target : String) (flags1 flags2 : Nat)
  | CreateVertexShader (bytecode : Blob)
  | CreatePixelShader (bytecode : Blob)
  | CreateInputLayout (descs : List D3D11_INPUT_ELEMENT_DESC) (num : Nat) (bytecode : Blob)
  | IASetPrimitiveTopology (topology : Nat)
  | IASetInputLayout
  | IASetVertexBuffers (start_slot num_buffers : Nat) (vertex_buffer : ID3D11Buffer)
      (stride offset : Nat)
  | IASetIndexBuffer (index_buffer : ID3D11Buffer) (format : DXGI_FORMAT) (offset : Nat)
  | VSSetShader
  | PSSetShader
  | ClearRenderTargetView (color : List f32)
  | ClearDepthStencilView (clear_flags : Nat) (depth : f32) (stencil : Nat)
  | DrawIndexed (index_count start_index_location : Nat) (base_vertex_location : Int)
  | Present (sync_interval flags : Nat)
  deriving DecidableEq, Repr

/-- How a run stops without returning: `exit(status)`, a failed `assert`
(abort), a call through a null pointer, or, in the render loop, waiting for
events beyond those supplied. -/
inductive Halt where
  | exit (status : Int)
  | abort
  | null_deref
  | pending
  deriving DecidableEq, Repr

/-- Result of a run: a returned value, or a halt. -/
inductive Res (α : Type) where
  | ok (a : α)
  | halt (h : Halt)
  deriving DecidableEq, Repr

/-- A run: the calls issued, in order, and how the run ended. -/
structure Run (α : Type) where
  trace : List Call
  res : Res α
  deriving DecidableEq, Repr

/-- Sequencing of runs: the second part runs only when the first returns. -/
def Run.bind {α β : Type} (x : Run α) (f : α → Run β) : Run β :=
  match x.res with
  | .ok a => ⟨x.trace ++ (f a).trace, (f a).res⟩
  | .halt h => ⟨x.trace, .halt h⟩

instance : Monad Run where
  pure a := ⟨[], .ok a⟩
  bind := Run.bind

/-- Issue one call. -/
def call (c : Call) : Run Unit := ⟨[c], .ok ()⟩

/-- Stop the run. -/
def halt {α : Type} (h : Halt) : Run α := ⟨[], .halt h⟩

/-- The `assert` of `<cassert>`, assertions enabled. -/
def assert (b : Bool) : Run Unit := if b then pure () else halt .abort

/-- The `CHECK` of line 23: `assert(X == S_OK)`, where evaluating `X` issues
the call `c` and yields `hr`. -/
def CHECK (c : Call) (hr : HRESULT) : Run Unit := do
  call c
  assert (hr == S_OK)

/-! ## The environment -/

/-- What `D3DCompile` hands back: the result code and the two out-blobs. -/
structure D3DCompileResult where
  result : HRESULT
  compiled_blob : Option Blob
  error_blob : Option String
  deriving DecidableEq, Repr

/-- The answers of the libraries to the calls of the program. -/
structure Env where
  /-- whether `DEBUG` or `_DEBUG` is defined -/
  DEBUG : Bool
  /-- the window handle `SDL_CreateWindow` returns, if any -/
  SDL_CreateWindow : Int → Int → Option Nat
  /-- the native handle `SDL_GetWindowWMInfo` reports -/
  hwnd : Nat
  D3D11CreateDevice : HRESULT
  feature_level : Nat
  QueryInterface_IDXGIDevice : HRESULT
  GetParent_IDXGIAdapter : HRESULT
  GetParent_IDXGIFactory : HRESULT
  CreateSwapChain : DXGI_SWAP_CHAIN_DESC → HRESULT
  CreateTexture2D : D3D11_TEXTURE2D_DESC → HRESULT
  CreateDepthStencilView : HRESULT
  CreateBuffer : D3D11_BUFFER_DESC → HRESULT
  /-- the contents of the file at a path, when it can be opened -/
  fopen : String → Option String
  D3DCompile : String → String → D3DCompileResult
  CreateVertexShader : Blob → HRESULT
  CreatePixelShader : Blob → HRESULT
  CreateInputLayout : Blob → HRESULT

/-! ## `Window` and `InitGfx` (lines 25-148) -/

/-- The `Window` of lines 25-37. -/
structure Window where
  width : Nat
  height : Nat
  sdl_window : Option Nat
  deriving DecidableEq, Repr

/-- The constructor of `Window` (lines 30-35). -/
def Window.ctor (env : Env) (width height : Nat) : Run Window := do
  call (.SDL_CreateWindow "win2" SDL_WINDOWPOS_UNDEFINED SDL_WINDOWPOS_UNDEFINED
    (to_int width) (to_int height) SDL_WINDOW_SHOWN)
  let sdl_window := env.SDL_CreateWindow (to_int width) (to_int height)
  assert sdl_window.isSome
  pure ⟨width, height, sdl_window⟩

/-- The destructor of `Window` (line 36). -/
def Window.dtor (window : Window) : Run Unit :=
  call (.SDL_DestroyWindow window.sdl_window)

/-- The `InitGfx` of lines 51-148. -/
def InitGfx (env : Env) (window : Window) : Run Unit := do
  let create_device_flags : Nat := if env.DEBUG then D3D11_CREATE_DEVICE_DEBUG else 0
  let desired_level := [D3D_FEATURE_LEVEL_11_1]
  CHECK (.D3D11CreateDevice D3D_DRIVER_TYPE_HARDWARE create_device_flags desired_level
    D3D11_SDK_VERSION) env.D3D11CreateDevice
  assert (env.feature_level == D3D_FEATURE_LEVEL_11_1)
  call (.SDL_GetWindowWMInfo window.sdl_window)
  let hwnd := env.hwnd
  let swap_chain_desc : DXGI_SWAP_CHAIN_DESC :=
    { BufferDesc :=
        { Width := to_u32 window.width
          Height := to_u32 window.height
          RefreshRate := { Numerator := 60, Denominator := 1 }
          Format := .R8G8B8A8_UNORM
          ScanlineOrdering := DXGI_MODE_SCANLINE_ORDER_UNSPECIFIED
          Scaling := DXGI_MODE_SCALING_UNSPECIFIED }
      SampleDesc := { Count := 1, Quality := 0 }
      BufferUsage := DXGI_USAGE_RENDER_TARGET_OUTPUT
      BufferCount := 1
      OutputWindow := hwnd
      Windowed := true
      SwapEffect := DXGI_SWAP_EFFECT_DISCARD
      Flags := 0 }
  CHECK .QueryInterface_IDXGIDevice env.QueryInterface_IDXGIDevice
  CHECK .GetParent_IDXGIAdapter env.GetParent_IDXGIAdapter
  CHECK .GetParent_IDXGIFactory env.GetParent_IDXGIFactory
  CHECK (.CreateSwapChain swap_chain_desc) (env.CreateSwapChain swap_chain_desc)
  call (.GetBuffer 0)
  call .CreateRenderTargetView
  let depthStencilDesc : D3D11_TEXTURE2D_DESC :=
    { Width := to_u32 window.width
      Height := to_u32 window.height
      MipLevels := 1
      ArraySize := 1
      Format := .D24_UNORM_S8_UINT
      SampleDesc := { Count := 1, Quality := 0 }
      Usage := .DEFAULT
      BindFlags := D3D11_BIND_DEPTH_STENCIL
      CPUAccessFlags := 0
      MiscFlags := 0 }
  CHECK (.CreateTexture2D depthStencilDesc) (env.CreateTexture2D depthStencilDesc)
  CHECK .CreateDepthStencilView env.CreateDepthStencilView
  call (.OMSetRenderTargets 1)
  let _viewport : D3D11_VIEWPORT :=
    { TopLeftX := 0
      TopLeftY := 0
      Width := static_cast_f32 window.width
      Height := static_cast_f32 window.height
      MinDepth := 0
      MaxDepth := 1 }
  call (.RSSetViewports 1 _viewport)
  let rasterizerDesc : D3D11_RASTERIZER_DESC :=
    { FillMode := D3D11_FILL_SOLID
      CullMode := D3D11_CULL_NONE
      FrontCounterClockwise := true }
  call (.CreateRasterizerState rasterizerDesc)
  call .RSSetState

/-! ## The buffer factory (lines 150-209) -/

/-- The `CreateBuffer` of lines 150-169; `initial_data` is the array the
`const u8 *` points to and `size` is the `u32` parameter.  The result is the
buffer created. -/
def CreateBuffer (env : Env) (initial_data : SysMem) (size : Nat) (usage : D3D11_USAGE)
    (bind_flag cpu_access_flag misc_flag structured_byte_stride : Nat) : Run ID3D11Buffer := do
  let buffer_desc : D3D11_BUFFER_DESC :=
    { ByteWidth := size
      Usage := usage
      BindFlags := bind_flag
      CPUAccessFlags := cpu_access_flag
      MiscFlags := misc_flag
      StructureByteStride := structured_byte_stride }
  let subresource_data : D3D11_SUBRESOURCE_DATA := { pSysMem := initial_data }
  CHECK (.CreateBuffer buffer_desc subresource_data) (env.CreateBuffer buffer_desc)
  pure ⟨buffer_desc, subresource_data⟩

/-- The template `CreateStaticVertexBuffer` of lines 171-176, taking a
`std::vector<T>`; `sizeof_T` is `sizeof(T)`.  The `size_t` product is converted
to the `u32` parameter of `CreateBuffer`. -/
def CreateStaticVertexBuffer {T : Type} [Storable T] (env : Env) (data : List T)
    (sizeof_T : Nat) (structured_byte_stride : Nat) : Run ID3D11Buffer :=
  CreateBuffer env (Storable.mem data) (to_u32 (size_t_mul data.length sizeof_T)) .IMMUTABLE
    D3D11_BIND_VERTEX_BUFFER 0 0 structured_byte_stride

/-- The raw-pointer `CreateStaticVertexBuffer` of lines 178-182. -/
def CreateStaticVertexBuffer_ptr (env : Env) (initial_data : SysMem) (size : Nat)
    (structured_byte_stride : Nat) : Run ID3D11Buffer :=
  CreateBuffer env initial_data size .IMMUTABLE D3D11_BIND_VERTEX_BUFFER 0 0
    structured_byte_stride

/-- The template `CreateStaticIndexBuffer` of lines 183-188. -/
def CreateStaticIndexBuffer {T : Type} [Storable T] (env : Env) (data : List T)
    (sizeof_T : Nat) (structured_byte_stride : Nat) : Run ID3D11Buffer :=
  CreateBuffer env (Storable.mem data) (to_u32 (size_t_mul data.length sizeof_T)) .DEFAULT
    D3D11_BIND_INDEX_BUFFER 0 0 structured_byte_stride

/-- The raw-pointer `CreateStaticIndexBuffer` of lines 190-194. -/
def CreateStaticIndexBuffer_ptr (env : Env) (initial_data : SysMem) (size : Nat)
    (structured_byte_stride : Nat) : Run ID3D11Buffer :=
  CreateBuffer env initial_data size .DEFAULT D3D11_BIND_INDEX_BUFFER 0 0 structured_byte_stride

/-- The template `CreateConstantBuffer` of lines 196-202; its `usage`
parameter is not used by the body. -/
def CreateConstantBuffer {T : Type} [Storable T] (env : Env) (data : List T) (sizeof_T : Nat)
    (_usage : D3D11_USAGE) (structured_byte_stride : Nat) : Run ID3D11Buffer :=
  CreateBuffer env (Storable.mem data) (to_u32 (size_t_mul data.length sizeof_T)) .DYNAMIC
    D3D11_BIND_CONSTANT_BUFFER D3D11_CPU_ACCESS_WRITE 0 structured_byte_stride

/-- The raw-pointer `CreateConstantBuffer` of lines 204-209. -/
def CreateConstantBuffer_ptr (env : Env) (initial_data : SysMem) (size : Nat)
    (usage : D3D11_USAGE) (cpu_access_flag : D3D11_CPU_ACCESS_FLAG)
    (misc_flag : D3D11_RESOURCE_MISC_FLAG) (structured_byte_stride : Nat) : Run ID3D11Buffer :=
  CreateBuffer env initial_data size usage D3D11_BIND_CONSTANT_BUFFER cpu_access_flag misc_flag
    structured_byte_stride

/-! ## The file loader (lines 211-246) -/

/-- The `FilePermissions` enumeration of lines 211-218. -/
inductive FilePermissions where
  | Read
  | Write
  | ReadWrite
  | BinaryRead
  | BinaryWrite
  | BinaryReadWrite
  deriving DecidableEq, Repr

/-- The table `cPermissions` of line 222, indexed by the enumerator. -/
def cPermissions : FilePermissions → String
  | .Read => "r"
  | .Write => "w"
  | .ReadWrite => "w+"
  | .BinaryRead => "rb"
  | .BinaryWrite => "wb"
  | .BinaryReadWrite => "wb+"

/-- The `OpenFile` of lines 220-231.  The returned `FILE *` is represented by
the contents of the file. -/
def OpenFile (env : Env) (file : String) (permissions : FilePermissions) : Run String := do
  call (.fopen file (cPermissions permissions))
  match env.fopen file with
  | none =>
    call (.printf ("FAILED TO OPEN FILE: " ++ file ++ "\n"))
    halt (.exit EXIT_FAILURE)
  | some ret => pure ret

/-- The `ReadEntireFileAsString` of lines 233-246. -/
def ReadEntireFileAsString (env : Env) (file : String) : Run String := do
  let fp ← OpenFile env file .Read
  call .fseek_end
  call .ftell
  let length := fp.length
  call .rewind
  if length == 0 then
    call (.printf "Failed to read file size\n")
  call (.fread 1 length)
  call .fclose
  pure fp

/-! ## The shader compiler (lines 248-281) -/

/-- Text printed by `printf` for `%x` applied to a result code: the 32-bit
two's complement pattern in lower-case hexadecimal. -/
def format_x (hr : HRESULT) : String := String.mk (Nat.toDigits 16 (hr % 2 ^ 32).toNat)

/-- The `CompileShader` of lines 248-265.  The result is the compiled blob
pointer, `none` when it is null. -/
def CompileShader (env : Env) (src : String) (shader_type : String) : Run (Option Blob) := do
  let compile_flags : Nat :=
    if env.DEBUG then D3DCOMPILE_ENABLE_STRICTNESS ||| D3DCOMPILE_DEBUG
    else D3DCOMPILE_ENABLE_STRICTNESS
  call (.D3DCompile src "main" shader_type compile_flags 0)
  let out := env.D3DCompile src shader_type
  if FAILED out.result then
    call (.printf ("COMPILE ERR CODE: " ++ format_x out.result ++ "\n"))
    match out.error_blob with
    | some text => call (.printf ("COMPILE ERROR " ++ text ++ "\n"))
    | none => pure ()
  pure out.compiled_blob

/-- The `CompileVertexShader` of lines 267-273.  `blob->GetBufferPointer()` is
a call through the blob pointer. -/
def CompileVertexShader (env : Env) (filename : String) : Run Blob := do
  let blob ← CompileShader env filename "vs_5_0"
  match blob with
  | none => halt .null_deref
  | some bytecode =>
    CHECK (.CreateVertexShader bytecode) (env.CreateVertexShader bytecode)
    pure bytecode

/-- The `CompilePixelShader` of lines 275-281. -/
def CompilePixelShader (env : Env) (filename : String) : Run Unit := do
  let blob ← CompileShader env filename "ps_5_0"
  match blob with
  | none => halt .null_deref
  | some bytecode =>
    CHECK (.CreatePixelShader bytecode) (env.CreatePixelShader bytecode)

/-! ## `main` (lines 285-335) -/

/-- The vertex data `vers` of lines 291-295. -/
def vers : List f32 := [-1, -1, 0, 1, 1, -1, 0, 1, 0, 1, 0, 1]

/-- The index data `ind` of line 296. -/
def ind : List Nat := [0, 1, 2]

/-- The `input_element_desc` array of lines 306-307. -/
def input_element_desc : List D3D11_INPUT_ELEMENT_DESC :=
  [{ SemanticName := "POSITION"
     SemanticIndex := 0
     Format := .R32G32B32A32_FLOAT
     InputSlot := 0
     AlignedByteOffset := 0
     InputSlotClass := D3D11_INPUT_PER_VERTEX_DATA
     InstanceDataStepRate := 0 }]

/-- The `stride` of line 314. -/
def stride : Nat := to_u32 (size_t_mul 4 sizeof_f32)

/-- The `offset` of line 315. -/
def offset : Nat := 0

/-- Lines 287-319 of `main`: everything before `while (true)`.  Returns the
`window` local, whose destructor runs when `main` returns. -/
def main_setup (env : Env) : Run Window := do
  let window ← Window.ctor env 1920 1080
  InitGfx env window
  let vb ← CreateStaticVertexBuffer env vers sizeof_f32 0
  let ib ← CreateStaticIndexBuffer env ind sizeof_u32 0
  let vert_source ← ReadEntireFileAsString env "shaders/VertexShader.hlsl"
  let vertex_blob ← CompileVertexShader env vert_source
  let pixel_source ← ReadEntireFileAsString env "shaders/PixelShader.hlsl"
  CompilePixelShader env pixel_source
  call (.CreateInputLayout input_element_desc 1 vertex_blob)
  assert (SUCCEEDED (env.CreateInputLayout vertex_blob))
  call (.IASetPrimitiveTopology D3D11_PRIMITIVE_TOPOLOGY_TRIANGLELIST)
  call .IASetInputLayout
  call (.IASetVertexBuffers 0 1 vb stride offset)
  call (.IASetIndexBuffer ib .R32_UINT 0)
  call .VSSetShader
  call .PSSetShader
  pure window

/-- The inner loop of lines 322-326 on the events pending at that moment:
`SDL_PollEvent` hands them out one by one and then returns `0`.  The result is
`true` when `return 0` was taken. -/
def poll_events : List SDL_Event → Run Bool
  | [] => do
    call (.SDL_PollEvent none)
    pure false
  | e :: pending => do
    call (.SDL_PollEvent (some e))
    if e.type == SDL_QUIT then pure true else poll_events pending

/-- The `clear_color` of line 327. -/
def clear_color : List f32 := [0, 0, 0, 1]

/-- Lines 327-331: clear, draw, present. -/
def render_frame : Run Unit := do
  call (.ClearRenderTargetView clear_color)
  call (.ClearDepthStencilView D3D11_CLEAR_DEPTH 1 0)
  call (.DrawIndexed 3 0 0)
  call (.Present 1 0)

/-- One pass of the body of `while (true)` (lines 322-331) on the batch of
events pending when it starts.  The result is `some code` when the pass leaves
`main` through `return code`, and `none` when the loop goes round again. -/
def loop_body (batch : List SDL_Event) : Run (Option Int) := do
  let quit ← poll_events batch
  if quit then pure (some 0)
  else
    render_frame
    pure none

/-- The `while (true)` of lines 321-333, run on the successive batches of
pending events, one batch per pass.  The result is the value `main` returns;
when the batches run out the loop is still waiting (`pending`). -/
def main_loop : List (List SDL_Event) → Run Int
  | [] => halt .pending
  | batch :: later => do
    match ← loop_body batch with
    | some code => pure code
    | none => main_loop later

/-- The `main` of lines 285-335.  On `return` the destructor of `window`
runs; `exit` and a failed `assert` do not run it. -/
def main (env : Env) (batches : List (List SDL_Event)) : Run Int := do
  let window ← main_setup env
  let code ← main_loop batches
  window.dtor
  pure code

/-- The exit status of the process after a run of `main`, when it ended. -/
def exit_status : Res Int → Option Int
  | .ok code => some code
  | .halt (.exit status) => some status
  | .halt _ => none

/-! ## Sample environments -/

/-- An environment in which every call succeeds and both shader files exist
and compile. -/
def env_ok : Env :=
  { DEBUG := true
    SDL_CreateWindow := fun _ _ => some 1
    hwnd := 7
    D3D11CreateDevice := S_OK
    feature_level := D3D_FEATURE_LEVEL_11_1
    QueryInterface_IDXGIDevice := S_OK
    GetParent_IDXGIAdapter := S_OK
    GetParent_IDXGIFactory := S_OK
    CreateSwapChain := fun _ => S_OK
    CreateTexture2D := fun _ => S_OK
    CreateDepthStencilView := S_OK
    CreateBuffer := fun _ => S_OK
    fopen := fun _ => some "float4 main();"
    D3DCompile := fun _ target =>
      { result := S_OK
        compiled_blob := some (if target == "vs_5_0" then [1, 2] else [3, 4])
        error_blob := none }
    CreateVertexShader := fun _ => S_OK
    CreatePixelShader := fun _ => S_OK
    CreateInputLayout := fun _ => S_OK }

/-- The `E_FAIL` result code. -/
def E_FAIL : HRESULT := -2147467259

/-- As `env_ok`, with a compiler that rejects every source with a diagnostic
and leaves the compiled blob null. -/
def env_compile_fails : Env :=
  { env_ok with
    D3DCompile := fun _ _ =>
      { result := E_FAIL
        compiled_blob := none
        error_blob := some "error X3000: syntax error" } }

/-- As `env_ok`, with no file at any path. -/
def env_no_files : Env :=
  { env_ok with fopen := fun _ => none }

/-- As `env_ok`, with the vertex shader file present and the pixel one not. -/
def env_no_pixel_file : Env :=
  { env_ok with
    fopen := fun file => if file == "shaders/VertexShader.hlsl" then some "v" else none }

/-! ## Classification of calls -/

/-- Whether a call goes to the graphics API (Direct3D 11, DXGI, the HLSL
compiler), as opposed to SDL2 or the C runtime. -/
def Call.is_gfx : Call → Bool
  | .SDL_CreateWindow .. => false
  | .SDL_DestroyWindow _ => false
  | .SDL_GetWindowWMInfo _ => false
  | .SDL_PollEvent _ => false
  | .fopen .. => false
  | .fseek_end => false
  | .ftell => false
  | .rewind => false
  | .fread .. => false
  | .fclose => false
  | .printf _ => false
  | _ => true

/-- The graphics calls of a trace, in order. -/
def gfx (t : List Call) : List Call := t.filter Call.is_gfx

/-- Whether a call creates a device, swap chain, view, state object, buffer,
shader or input layout. -/
def Call.is_creation : Call → Bool
  | .D3D11CreateDevice .. => true
  | .CreateSwapChain _ => true
  | .CreateRenderTargetView => true
  | .CreateTexture2D _ => true
  | .CreateDepthStencilView => true
  | .CreateRasterizerState _ => true
  | .CreateBuffer .. => true
  | .D3DCompile .. => true
  | .CreateVertexShader _ => true
  | .CreatePixelShader _ => true
  | .CreateInputLayout .. => true
  | _ => false

/-- Whether a call binds state or resources to the pipeline. -/
def Call.is_binding : Call → Bool
  | .OMSetRenderTargets _ => true
  | .RSSetViewports .. => true
  | .RSSetState => true
  | .IASetPrimitiveTopology _ => true
  | .IASetInputLayout => true
  | .IASetVertexBuffers .. => true
  | .IASetIndexBuffer .. => true
  | .VSSetShader => true
  | .PSSetShader => true
  | _ => false

/-- Whether a call destroys an object. -/
def Call.is_destruction : Call → Bool
  | .SDL_DestroyWindow _ => true
  | _ => false

/-- The stages of start-up, in the order the specification names them, and the
render loop. -/
inductive Stage where
  | device
  | swap_chain
  | buffers
  | vertex_shader
  | pixel_shader
  | binding
  | loop
  deriving DecidableEq, Repr

/-- Position of a stage in the required order. -/
def Stage.rank : Stage → Nat
  | .device => 0
  | .swap_chain => 1
  | .buffers => 2
  | .vertex_shader => 3
  | .pixel_shader => 4
  | .binding => 5
  | .loop => 6

/-- The stage a graphics call belongs to: device creation; swap-chain
creation, with the rest of `InitGfx` (the DXGI queries before it, and the
views, depth-stencil surface, viewport and rasterizer state set up after it);
buffer creation; compilation and creation of the vertex shader, and of the
pixel shader; pipeline binding (input layout, topology, vertex and index
buffers, shaders); or a frame of the loop.  Calls to SDL2 and to the C runtime
belong to none of these. -/
def Call.stage : Call → Option Stage
  | .D3D11CreateDevice .. => some .device
  | .QueryInterface_IDXGIDevice => some .swap_chain
  | .GetParent_IDXGIAdapter => some .swap_chain
  | .GetParent_IDXGIFactory => some .swap_chain
  | .CreateSwapChain _ => some .swap_chain
  | .GetBuffer _ => some .swap_chain
  | .CreateRenderTargetView => some .swap_chain
  | .CreateTexture2D _ => some .swap_chain
  | .CreateDepthStencilView => some .swap_chain
  | .OMSetRenderTargets _ => some .swap_chain
  | .RSSetViewports .. => some .swap_chain
  | .CreateRasterizerState _ => some .swap_chain
  | .RSSetState => some .swap_chain
  | .CreateBuffer .. => some .buffers
  | .D3DCompile _ _ target _ _ => some (if target = "vs_5_0" then .vertex_shader else .pixel_shader)
  | .CreateVertexShader _ => some .vertex_shader
  | .CreatePixelShader _ => some .pixel_shader
  | .CreateInputLayout .. => some .binding
  | .IASetPrimitiveTopology _ => some .binding
  | .IASetInputLayout => some .binding
  | .IASetVertexBuffers .. => some .binding
  | .IASetIndexBuffer .. => some .binding
  | .VSSetShader => some .binding
  | .PSSetShader => some .binding
  | .ClearRenderTargetView _ => some .loop
  | .ClearDepthStencilView .. => some .loop
  | .DrawIndexed .. => some .loop
  | .Present .. => some .loop
  | _ => none

/-- The four graphics calls of one frame. -/
def frame_calls : List Call :=
  [.ClearRenderTargetView [0, 0, 0, 1], .ClearDepthStencilView D3D11_CLEAR_DEPTH 1 0,
   .DrawIndexed 3 0 0, .Present 1 0]

/-- Whether a batch of events holds a quit event. -/
def has_quit (batch : List SDL_Event) : Bool := batch.any (fun e => e.type == SDL_QUIT)

/-- Case analysis on a result. -/
def Res.elim {α : Type} {β : Sort _} (r : Res α) (g : α → β) (d : Halt → β) : β :=
  match r with
  | .ok a => g a
  | .halt h => d h

/-- The swap-chain descriptor `swap_chain_desc` of lines 68-91. -/
def swap_chain_desc (hwnd : Nat) (window : Window) : DXGI_SWAP_CHAIN_DESC :=
  { BufferDesc :=
      { Width := to_u32 window.width
        Height := to_u32 window.height
        RefreshRate := { Numerator := 60, Denominator := 1 }
        Format := .R8G8B8A8_UNORM
        ScanlineOrdering := DXGI_MODE_SCANLINE_ORDER_UNSPECIFIED
        Scaling := DXGI_MODE_SCALING_UNSPECIFIED }
    SampleDesc := { Count := 1, Quality := 0 }
    BufferUsage := DXGI_USAGE_RENDER_TARGET_OUTPUT
    BufferCount := 1
    OutputWindow := hwnd
    Windowed := true
    SwapEffect := DXGI_SWAP_EFFECT_DISCARD
    Flags := 0 }

/-- The depth-stencil descriptor `depthStencilDesc` of lines 106-121. -/
def depthStencilDesc (window : Window) : D3D11_TEXTURE2D_DESC :=
  { Width := to_u32 window.width
    Height := to_u32 window.height
    MipLevels := 1
    ArraySize := 1
    Format := .D24_UNORM_S8_UINT
    SampleDesc := { Count := 1, Quality := 0 }
    Usage := .DEFAULT
    BindFlags := D3D11_BIND_DEPTH_STENCIL
    CPUAccessFlags := 0
    MiscFlags := 0 }

/-- The viewport `_viewport` of lines 129-136. -/
def viewport_of (window : Window) : D3D11_VIEWPORT :=
  { TopLeftX := 0
    TopLeftY := 0
    Width := static_cast_f32 window.width
    Height := static_cast_f32 window.height
    MinDepth := 0
    MaxDepth := 1 }

/-- The calls of a run of `InitGfx` in which every check passes. -/
def InitGfx_calls (debug : Bool) (hwnd : Nat) (window : Window) : List Call :=
  [ .D3D11CreateDevice D3D_DRIVER_TYPE_HARDWARE (if debug then D3D11_CREATE_DEVICE_DEBUG else 0)
      [D3D_FEATURE_LEVEL_11_1] D3D11_SDK_VERSION,
    .SDL_GetWindowWMInfo window.sdl_window,
    .QueryInterface_IDXGIDevice,
    .GetParent_IDXGIAdapter,
    .GetParent_IDXGIFactory,
    .CreateSwapChain (swap_chain_desc hwnd window),
    .GetBuffer 0,
    .CreateRenderTargetView,
    .CreateTexture2D (depthStencilDesc window),
    .CreateDepthStencilView,
    .OMSetRenderTargets 1,
    .RSSetViewports 1 (viewport_of window),
    .CreateRasterizerState
      { FillMode := D3D11_FILL_SOLID, CullMode := D3D11_CULL_NONE, FrontCounterClockwise := true },
    .RSSetState ]

/-- The descriptor `CreateBuffer` builds from its arguments. -/
def buffer_desc (size : Nat) (usage : D3D11_USAGE)
    (bind_flag cpu_access_flag misc_flag structured_byte_stride : Nat) : D3D11_BUFFER_DESC :=
  { ByteWidth := size
    Usage := usage
    BindFlags := bind_flag
    CPUAccessFlags := cpu_access_flag
    MiscFlags := misc_flag
    StructureByteStride := structured_byte_stride }

/-- The compile flags of `CompileShader`. -/
def compile_flags (debug : Bool) : Nat :=
  if debug then D3DCOMPILE_ENABLE_STRICTNESS ||| D3DCOMPILE_DEBUG else D3DCOMPILE_ENABLE_STRICTNESS

/-- The vertex buffer a successful start-up creates: 48 bytes, immutable, from
the twelve floats of the triangle. -/
def triangle_vb : ID3D11Buffer :=
  { desc := buffer_desc 48 .IMMUTABLE D3D11_BIND_VERTEX_BUFFER 0 0 0
    initial := { pSysMem := .f32s [-1, -1, 0, 1, 1, -1, 0, 1, 0, 1, 0, 1] } }

/-- The index buffer a successful start-up creates: 12 bytes, default usage,
from the three indices of the triangle. -/
def triangle_ib : ID3D11Buffer :=
  { desc := buffer_desc 12 .DEFAULT D3D11_BIND_INDEX_BUFFER 0 0 0
    initial := { pSysMem := .u32s [0, 1, 2] } }

/-- The graphics calls of a start-up in which every check passes, for the
shader sources and compiled blobs at hand. -/
def setup_gfx_calls (debug : Bool) (hwnd : Nat) (window : Window) (vert_source : String)
    (vertex_blob : Blob) (pixel_source : String) (pixel_blob : Blob) : List Call :=
  [ .D3D11CreateDevice D3D_DRIVER_TYPE_HARDWARE (if debug then D3D11_CREATE_DEVICE_DEBUG else 0)
      [D3D_FEATURE_LEVEL_11_1] D3D11_SDK_VERSION,
    .QueryInterface_IDXGIDevice,
    .GetParent_IDXGIAdapter,
    .GetParent_IDXGIFactory,
    .CreateSwapChain (swap_chain_desc hwnd window),
    .GetBuffer 0,
    .CreateRenderTargetView,
    .CreateTexture2D (depthStencilDesc window),
    .CreateDepthStencilView,
    .OMSetRenderTargets 1,
    .RSSetViewports 1 (viewport_of window),
    .CreateRasterizerState
      { FillMode := D3D11_FILL_SOLID, CullMode := D3D11_CULL_NONE, FrontCounterClockwise := true },
    .RSSetState,
    .CreateBuffer (buffer_desc 48 .IMMUTABLE D3D11_BIND_VERTEX_BUFFER 0 0 0)
      { pSysMem := .f32s [-1, -1, 0, 1, 1, -1, 0, 1, 0, 1, 0, 1] },
    .CreateBuffer (buffer_desc 12 .DEFAULT D3D11_BIND_INDEX_BUFFER 0 0 0)
      { pSysMem := .u32s [0, 1, 2] },
    .D3DCompile vert_source "main" "vs_5_0" (compile_flags debug) 0,
    .CreateVertexShader vertex_blob,
    .D3DCompile pixel_source "main" "ps_5_0" (compile_flags debug) 0,
    .CreatePixelShader pixel_blob,
    .CreateInputLayout input_element_desc 1 vertex_blob,
    .IASetPrimitiveTopology D3D11_PRIMITIVE_TOPOLOGY_TRIANGLELIST,
    .IASetInputLayout,
    .IASetVertexBuffers 0 1 triangle_vb 16 0,
    .IASetIndexBuffer triangle_ib .R32_UINT 0,
    .VSSetShader,
    .PSSetShader ]

/-- Whether a `u32` is a value of `f32`: no set bit is lost in the 24-bit
significand. -/
def f32_representable (n : Nat) : Prop := n % 2 ^ f32_shift 32 n = 0

instance (n : Nat) : Decidable (f32_representable n) :=
  inferInstanceAs (Decidable (n % 2 ^ f32_shift 32 n = 0))

/-- Whether a call invokes the HLSL compiler for the given target profile. -/
def Call.compiles (target : String) : Call → Bool
  | .D3DCompile _ _ t _ _ => t == target
  | _ => false

/-- Whether a call invokes the HLSL compiler. -/
def Call.is_compile : Call → Bool
  | .D3DCompile .. => true
  | _ => false

/-- A run all of whose calls satisfy `P` and which, when it halts, halts in a
way that satisfies `H`. -/
def Run.Within {α : Type} (x : Run α) (P : Call → Prop) (H : Halt → Prop) : Prop :=
  (∀ c ∈ x.trace, P c) ∧ ∀ h, x.res = .halt h → H h

/-- Number of frames the loop draws on a list of batches: the number of
batches before the first one that holds a quit event. -/
def frames_drawn : List (List SDL_Event) → Nat
  | [] => 0
  | batch :: later => if has_quit batch then 0 else frames_drawn later + 1

/-- The stages of the calls of a start-up in which every check passes. -/
def setup_stages : List Stage :=
  [.device] ++ List.replicate 12 .swap_chain ++ [.buffers, .buffers] ++
  [.vertex_shader, .vertex_shader, .pixel_shader, .pixel_shader] ++ List.replicate 7 .binding

/-! ## Basic facts about runs -/

theorem Res.elim_ok {α : Type} {β : Sort _} (a : α) (g : α → β) (d : Halt → β) :
    (Res.ok a).elim g d = g a := rfl

theorem Res.elim_halt {α : Type} {β : Sort _} (h : Halt) (g : α → β) (d : Halt → β) :
    (Res.halt h : Res α).elim g d = d h := rfl

theorem Res.elim_ite {α : Type} {β : Sort _} (c : Prop) [Decidable c] (r s : Res α) (g : α → β)
    (d : Halt → β) : (if c then r else s).elim g d = if c then r.elim g d else s.elim g d := by
  split <;> rfl

theorem pure_def {α : Type} (a : α) : (pure a : Run α) = ⟨[], .ok a⟩ := rfl

theorem bind_def {α β : Type} (x : Run α) (f : α → Run β) : x >>= f = x.bind f := rfl

theorem trace_bind {α β : Type} (x : Run α) (f : α → Run β) :
    (x.bind f).trace = x.trace ++ x.res.elim (fun a => (f a).trace) (fun _ => []) := by
  cases h : x.res <;> simp [Run.bind, h, Res.elim]

theorem res_bind {α β : Type} (x : Run α) (f : α → Run β) :
    (x.bind f).res = x.res.elim (fun a => (f a).res) (fun h => .halt h) := by
  cases h : x.res <;> simp [Run.bind, h, Res.elim]

theorem trace_ite {α : Type} (c : Prop) [Decidable c] (x y : Run α) :
    (if c then x else y).trace = if c then x.trace else y.trace := by
  split <;> rfl

theorem res_ite {α : Type} (c : Prop) [Decidable c] (x y : Run α) :
    (if c then x else y).res = if c then x.res else y.res := by
  split <;> rfl

theorem ite_halt_eq_ok {α : Type} (c : Prop) [Decidable c] (r : Res α) (h : Halt) (a : α) :
    (if c then r else .halt h) = .ok a ↔ c ∧ r = .ok a := by
  split <;> simp [*]

theorem gfx_append (s t : List Call) : gfx (s ++ t) = gfx s ++ gfx t := by
  simp [gfx]

/-! ## The render loop -/

theorem poll_events_no_quit (batch : List SDL_Event) (h : has_quit batch = false) :
    poll_events batch
      = ⟨batch.map (fun e => Call.SDL_PollEvent (some e)) ++ [Call.SDL_PollEvent none],
          .ok false⟩ := by
  induction batch with
  | nil => rfl
  | cons e es ih =>
    simp only [has_quit, List.any_cons, Bool.or_eq_false_iff, beq_eq_false_iff_ne] at h
    have hes : has_quit es = false := h.2
    simp only [poll_events, bind_def, beq_iff_eq, if_neg h.1, ih hes]
    rfl

theorem poll_events_quit (batch : List SDL_Event) (h : has_quit batch = true) :
    ∃ pre e post, batch = pre ++ e :: post ∧ has_quit pre = false ∧ e.type = SDL_QUIT ∧
      poll_events batch = ⟨(pre ++ [e]).map (fun x => Call.SDL_PollEvent (some x)), .ok true⟩ := by
  induction batch with
  | nil => simp [has_quit] at h
  | cons e es ih =>
    by_cases he : e.type = SDL_QUIT
    · refine ⟨[], e, es, rfl, rfl, he, ?_⟩
      simp only [poll_events, bind_def, beq_iff_eq, if_pos he]
      rfl
    · have hes : has_quit es = true := by
        simpa [has_quit, List.any_cons, he] using h
      obtain ⟨pre, q, post, hb, hpre, hq, hrun⟩ := ih hes
      refine ⟨e :: pre, q, post, by simp [hb], ?_, hq, ?_⟩
      · simp only [has_quit, List.any_cons, Bool.or_eq_false_iff, beq_eq_false_iff_ne]
        exact ⟨he, hpre⟩
      · simp only [poll_events, bind_def, beq_iff_eq, if_neg he, hrun]
        rfl

theorem loop_body_no_quit (batch : List SDL_Event) (h : has_quit batch = false) :
    loop_body batch
      = ⟨batch.map (fun e => Call.SDL_PollEvent (some e)) ++ [Call.SDL_PollEvent none]
          ++ frame_calls, .ok none⟩ := by
  simp only [loop_body, bind_def, poll_events_no_quit batch h]
  rfl

theorem loop_body_quit (batch : List SDL_Event) (h : has_quit batch = true) :
    ∃ pre e post, batch = pre ++ e :: post ∧ has_quit pre = false ∧ e.type = SDL_QUIT ∧
      loop_body batch = ⟨(pre ++ [e]).map (fun x => Call.SDL_PollEvent (some x)), .ok (some 0)⟩ := by
  obtain ⟨pre, e, post, hb, hpre, he, hrun⟩ := poll_events_quit batch h
  refine ⟨pre, e, post, hb, hpre, he, ?_⟩
  simp only [loop_body, bind_def, hrun]
  simp [Run.bind, pure_def]

theorem gfx_polls (l : List (Option SDL_Event)) : gfx (l.map Call.SDL_PollEvent) = [] := by
  induction l with
  | nil => rfl
  | cons e es ih => simp [gfx, Call.is_gfx]

theorem main_loop_cons_no_quit (batch : List SDL_Event) (later : List (List SDL_Event))
    (h : has_quit batch = false) :
    main_loop (batch :: later)
      = ⟨(loop_body batch).trace ++ (main_loop later).trace, (main_loop later).res⟩ := by
  simp only [main_loop, bind_def, loop_body_no_quit batch h]
  rfl

theorem main_loop_cons_quit (batch : List SDL_Event) (later : List (List SDL_Event))
    (h : has_quit batch = true) :
    main_loop (batch :: later) = ⟨(loop_body batch).trace, .ok 0⟩ := by
  obtain ⟨pre, e, post, _, _, _, hrun⟩ := loop_body_quit batch h
  simp only [main_loop, bind_def, hrun]
  simp [Run.bind, pure_def]

/-- The frames drawn for a list of batches none of which holds a quit event. -/
theorem main_loop_append (before rest : List (List SDL_Event))
    (h : ∀ b ∈ before, has_quit b = false) :
    (main_loop before).res = .halt .pending ∧
    main_loop (before ++ rest)
      = ⟨(main_loop before).trace ++ (main_loop rest).trace, (main_loop rest).res⟩ := by
  induction before with
  | nil => exact ⟨rfl, rfl⟩
  | cons b bs ih =>
    have hb : has_quit b = false := h b (List.mem_cons_self _ _)
    have hbs : ∀ x ∈ bs, has_quit x = false := fun x hx => h x (List.mem_cons_of_mem _ hx)
    obtain ⟨h1, h2⟩ := ih hbs
    constructor
    · rw [main_loop_cons_no_quit b bs hb]
      exact h1
    · rw [List.cons_append, main_loop_cons_no_quit b (bs ++ rest) hb, h2,
        main_loop_cons_no_quit b bs hb]
      simp

/-- The run of `main` once start-up has succeeded. -/
theorem main_of_setup_ok (env : Env) (w : Window) (batches : List (List SDL_Event))
    (h : (main_setup env).res = .ok w) :
    (main env batches).res = (main_loop batches).res ∧
    (main env batches).trace
      = (main_setup env).trace ++ (main_loop batches).trace
          ++ (main_loop batches).res.elim (fun _ => [Call.SDL_DestroyWindow w.sdl_window])
              (fun _ => []) := by
  simp only [main, bind_def, res_bind, trace_bind, h, Res.elim_ok, Window.dtor, call, pure_def]
  cases (main_loop batches).res <;> simp [Res.elim]

/-- The run of `main` when start-up halts. -/
theorem main_of_setup_halt (env : Env) (e : Halt) (batches : List (List SDL_Event))
    (h : (main_setup env).res = .halt e) :
    main env batches = ⟨(main_setup env).trace, .halt e⟩ := by
  simp only [main, bind_def, Run.bind, h]

/-! ## Start-up, function by function -/

theorem elim_eq_ok {α β : Type} (r : Res α) (g : α → Res β) (b : β) :
    r.elim g (fun h => .halt h) = .ok b ↔ ∃ a, r = .ok a ∧ g a = .ok b := by
  cases r <;> simp [Res.elim]

theorem Window_ctor_trace (env : Env) (width height : Nat) :
    (Window.ctor env width height).trace
      = [Call.SDL_CreateWindow "win2" SDL_WINDOWPOS_UNDEFINED SDL_WINDOWPOS_UNDEFINED
          (to_int width) (to_int height) SDL_WINDOW_SHOWN] := by
  simp only [Window.ctor, bind_def, pure_def, trace_bind, res_bind, call, assert, halt,
    res_ite, trace_ite, Res.elim_ok, Res.elim_halt, Res.elim_ite, ite_self,
    List.nil_append, List.append_nil, List.cons_append]

theorem Window_ctor_res (env : Env) (width height : Nat) :
    (Window.ctor env width height).res
      = if (env.SDL_CreateWindow (to_int width) (to_int height)).isSome = true
        then .ok ⟨width, height, env.SDL_CreateWindow (to_int width) (to_int height)⟩
        else .halt .abort := by
  simp only [Window.ctor, bind_def, pure_def, trace_bind, res_bind, call, assert, halt,
    res_ite, trace_ite, Res.elim_ok, Res.elim_halt, Res.elim_ite, ite_self]

theorem InitGfx_trace (env : Env) (window : Window) :
    ((InitGfx env window).res = .ok () →
      (InitGfx env window).trace = InitGfx_calls env.DEBUG env.hwnd window) ∧
    ∃ rest, InitGfx_calls env.DEBUG env.hwnd window = (InitGfx env window).trace ++ rest := by
  simp only [InitGfx, CHECK, bind_def, pure_def, trace_bind, res_bind, call, assert, halt,
    res_ite, trace_ite, Res.elim_ok, Res.elim_halt, Res.elim_ite, ite_self, beq_iff_eq,
    List.nil_append, List.append_nil, List.cons_append, InitGfx_calls, swap_chain_desc,
    depthStencilDesc, viewport_of]
  split_ifs <;> simp

theorem CreateBuffer_trace (env : Env) (initial_data : SysMem) (size : Nat)
    (usage : D3D11_USAGE) (bind_flag cpu_access_flag misc_flag structured_byte_stride : Nat) :
    (CreateBuffer env initial_data size usage bind_flag cpu_access_flag misc_flag
        structured_byte_stride).trace
      = [Call.CreateBuffer
          (buffer_desc size usage bind_flag cpu_access_flag misc_flag structured_byte_stride)
          { pSysMem := initial_data }] := by
  simp only [CreateBuffer, CHECK, bind_def, pure_def, trace_bind, res_bind, call, assert, halt,
    res_ite, trace_ite, Res.elim_ok, Res.elim_halt, Res.elim_ite, ite_self,
    List.nil_append, List.append_nil, List.cons_append, buffer_desc]

theorem ReadEntireFileAsString_none (env : Env) (file : String) (h : env.fopen file = none) :
    ReadEntireFileAsString env file
      = ⟨[Call.fopen file "r", Call.printf ("FAILED TO OPEN FILE: " ++ file ++ "\n")],
          .halt (.exit EXIT_FAILURE)⟩ := by
  simp only [ReadEntireFileAsString, OpenFile, h, bind_def, call, halt, cPermissions]
  rfl

theorem ReadEntireFileAsString_some (env : Env) (file text : String)
    (h : env.fopen file = some text) :
    (ReadEntireFileAsString env file).res = .ok text ∧
    gfx (ReadEntireFileAsString env file).trace = [] ∧
    ∀ c ∈ (ReadEntireFileAsString env file).trace, c.stage = none := by
  simp only [ReadEntireFileAsString, OpenFile, h, bind_def, pure_def, trace_bind, res_bind, call,
    halt, res_ite, trace_ite, Res.elim_ok, Res.elim_halt, Res.elim_ite, ite_self, cPermissions,
    List.nil_append, List.append_nil, List.cons_append]
  refine ⟨trivial, ?_, ?_⟩
  · split_ifs <;> rfl
  · split_ifs <;> simp [Call.stage]

theorem ReadEntireFileAsString_res_ok (env : Env) (file text : String)
    (h : (ReadEntireFileAsString env file).res = .ok text) : env.fopen file = some text := by
  cases hf : env.fopen file with
  | none => rw [ReadEntireFileAsString_none env file hf] at h; cases h
  | some s =>
    rw [(ReadEntireFileAsString_some env file s hf).1] at h
    cases h
    rfl

theorem CompileShader_res (env : Env) (src shader_type : String) :
    (CompileShader env src shader_type).res = .ok (env.D3DCompile src shader_type).compiled_blob := by
  by_cases hf : FAILED (env.D3DCompile src shader_type).result = true
  · cases he : (env.D3DCompile src shader_type).error_blob <;>
      simp [CompileShader, hf, he, bind_def, pure_def, res_bind, call, Res.elim_ok]
  · simp [CompileShader, hf, bind_def, pure_def, res_bind, call, Res.elim_ok]

theorem CompileShader_trace (env : Env) (src shader_type : String) :
    (CompileShader env src shader_type).trace
      = Call.D3DCompile src "main" shader_type (compile_flags env.DEBUG) 0 ::
        (if FAILED (env.D3DCompile src shader_type).result = true then
          Call.printf ("COMPILE ERR CODE: " ++ format_x (env.D3DCompile src shader_type).result
            ++ "\n") ::
          (match (env.D3DCompile src shader_type).error_blob with
           | some text => [Call.printf ("COMPILE ERROR " ++ text ++ "\n")]
           | none => [])
         else []) := by
  by_cases hf : FAILED (env.D3DCompile src shader_type).result = true
  · cases he : (env.D3DCompile src shader_type).error_blob <;>
      simp [CompileShader, hf, he, bind_def, pure_def, res_bind, trace_bind, call, Res.elim_ok,
        compile_flags]
  · simp [CompileShader, hf, bind_def, pure_def, res_bind, trace_bind, call, Res.elim_ok,
      compile_flags]

theorem CompileShader_gfx (env : Env) (src shader_type : String) :
    gfx (CompileShader env src shader_type).trace
      = [Call.D3DCompile src "main" shader_type (compile_flags env.DEBUG) 0] := by
  rw [CompileShader_trace]
  split
  · split <;> rfl
  · rfl

theorem CompileVertexShader_none (env : Env) (src : String)
    (h : (env.D3DCompile src "vs_5_0").compiled_blob = none) :
    CompileVertexShader env src = ⟨(CompileShader env src "vs_5_0").trace, .halt .null_deref⟩ := by
  simp only [CompileVertexShader, bind_def, Run.bind, CompileShader_res, h, halt,
    List.append_nil]

theorem CompileVertexShader_some (env : Env) (src : String) (blob : Blob)
    (h : (env.D3DCompile src "vs_5_0").compiled_blob = some blob) :
    CompileVertexShader env src
      = ⟨(CompileShader env src "vs_5_0").trace ++ [Call.CreateVertexShader blob],
          if env.CreateVertexShader blob = S_OK then .ok blob else .halt .abort⟩ := by
  simp only [CompileVertexShader, bind_def, Run.bind, CompileShader_res, h, CHECK, call, assert,
    halt, pure_def, beq_iff_eq]
  split_ifs <;> simp

theorem CompilePixelShader_none (env : Env) (src : String)
    (h : (env.D3DCompile src "ps_5_0").compiled_blob = none) :
    CompilePixelShader env src = ⟨(CompileShader env src "ps_5_0").trace, .halt .null_deref⟩ := by
  simp only [CompilePixelShader, bind_def, Run.bind, CompileShader_res, h, halt,
    List.append_nil]

theorem CompilePixelShader_some (env : Env) (src : String) (blob : Blob)
    (h : (env.D3DCompile src "ps_5_0").compiled_blob = some blob) :
    CompilePixelShader env src
      = ⟨(CompileShader env src "ps_5_0").trace ++ [Call.CreatePixelShader blob],
          if env.CreatePixelShader blob = S_OK then .ok () else .halt .abort⟩ := by
  simp only [CompilePixelShader, bind_def, Run.bind, CompileShader_res, h, CHECK, call, assert,
    halt, pure_def, beq_iff_eq]
  split_ifs <;> simp

theorem CompileVertexShader_res_ok (env : Env) (src : String) (blob : Blob)
    (h : (CompileVertexShader env src).res = .ok blob) :
    (env.D3DCompile src "vs_5_0").compiled_blob = some blob ∧
    gfx (CompileVertexShader env src).trace
      = [Call.D3DCompile src "main" "vs_5_0" (compile_flags env.DEBUG) 0,
         Call.CreateVertexShader blob] := by
  cases hb : (env.D3DCompile src "vs_5_0").compiled_blob with
  | none => rw [CompileVertexShader_none env src hb] at h; cases h
  | some b =>
    rw [CompileVertexShader_some env src b hb] at h ⊢
    simp only [ite_halt_eq_ok, Res.ok.injEq] at h
    obtain ⟨_, rfl⟩ := h
    refine ⟨rfl, ?_⟩
    rw [gfx_append, CompileShader_gfx]
    rfl

theorem CompilePixelShader_res_ok (env : Env) (src : String)
    (h : (CompilePixelShader env src).res = .ok ()) :
    ∃ blob, (env.D3DCompile src "ps_5_0").compiled_blob = some blob ∧
    gfx (CompilePixelShader env src).trace
      = [Call.D3DCompile src "main" "ps_5_0" (compile_flags env.DEBUG) 0,
         Call.CreatePixelShader blob] := by
  cases hb : (env.D3DCompile src "ps_5_0").compiled_blob with
  | none => rw [CompilePixelShader_none env src hb] at h; cases h
  | some b =>
    rw [CompilePixelShader_some env src b hb]
    refine ⟨b, rfl, ?_⟩
    rw [gfx_append, CompileShader_gfx]
    rfl

theorem gfx_InitGfx_calls (debug : Bool) (hwnd : Nat) (window : Window) :
    gfx (InitGfx_calls debug hwnd window)
      = [ .D3D11CreateDevice D3D_DRIVER_TYPE_HARDWARE
            (if debug then D3D11_CREATE_DEVICE_DEBUG else 0) [D3D_FEATURE_LEVEL_11_1]
            D3D11_SDK_VERSION,
          .QueryInterface_IDXGIDevice,
          .GetParent_IDXGIAdapter,
          .GetParent_IDXGIFactory,
          .CreateSwapChain (swap_chain_desc hwnd window),
          .GetBuffer 0,
          .CreateRenderTargetView,
          .CreateTexture2D (depthStencilDesc window),
          .CreateDepthStencilView,
          .OMSetRenderTargets 1,
          .RSSetViewports 1 (viewport_of window),
          .CreateRasterizerState
            { FillMode := D3D11_FILL_SOLID, CullMode := D3D11_CULL_NONE,
              FrontCounterClockwise := true },
          .RSSetState ] := rfl

theorem assert_trace (b : Bool) : (assert b).trace = [] := by
  cases b <;> rfl

theorem call_trace (c : Call) : (call c).trace = [c] := rfl

theorem CreateStaticVertexBuffer_trace {T : Type} [Storable T] (env : Env) (data : List T)
    (sizeof_T structured_byte_stride : Nat) :
    (CreateStaticVertexBuffer env data sizeof_T structured_byte_stride).trace
      = [Call.CreateBuffer (buffer_desc (to_u32 (size_t_mul data.length sizeof_T)) .IMMUTABLE
          D3D11_BIND_VERTEX_BUFFER 0 0 structured_byte_stride) { pSysMem := Storable.mem data }] :=
  CreateBuffer_trace ..

theorem CreateStaticIndexBuffer_trace {T : Type} [Storable T] (env : Env) (data : List T)
    (sizeof_T structured_byte_stride : Nat) :
    (CreateStaticIndexBuffer env data sizeof_T structured_byte_stride).trace
      = [Call.CreateBuffer (buffer_desc (to_u32 (size_t_mul data.length sizeof_T)) .DEFAULT
          D3D11_BIND_INDEX_BUFFER 0 0 structured_byte_stride) { pSysMem := Storable.mem data }] :=
  CreateBuffer_trace ..

theorem CreateConstantBuffer_trace {T : Type} [Storable T] (env : Env) (data : List T)
    (sizeof_T : Nat) (usage : D3D11_USAGE) (structured_byte_stride : Nat) :
    (CreateConstantBuffer env data sizeof_T usage structured_byte_stride).trace
      = [Call.CreateBuffer (buffer_desc (to_u32 (size_t_mul data.length sizeof_T)) .DYNAMIC
          D3D11_BIND_CONSTANT_BUFFER D3D11_CPU_ACCESS_WRITE 0 structured_byte_stride)
          { pSysMem := Storable.mem data }] :=
  CreateBuffer_trace ..

theorem CreateBuffer_res (env : Env) (initial_data : SysMem) (size : Nat) (usage : D3D11_USAGE)
    (bind_flag cpu_access_flag misc_flag structured_byte_stride : Nat) :
    (CreateBuffer env initial_data size usage bind_flag cpu_access_flag misc_flag
        structured_byte_stride).res
      = if env.CreateBuffer
            (buffer_desc size usage bind_flag cpu_access_flag misc_flag structured_byte_stride)
          = S_OK
        then .ok ⟨buffer_desc size usage bind_flag cpu_access_flag misc_flag
          structured_byte_stride, { pSysMem := initial_data }⟩
        else .halt .abort := by
  simp only [CreateBuffer, CHECK, bind_def, pure_def, trace_bind, res_bind, call, assert, halt,
    res_ite, trace_ite, Res.elim_ok, Res.elim_halt, Res.elim_ite, ite_self, beq_iff_eq,
    buffer_desc]

theorem CreateStaticVertexBuffer_res_ok {T : Type} [Storable T] (env : Env) (data : List T)
    (sizeof_T structured_byte_stride : Nat) (buffer : ID3D11Buffer)
    (h : (CreateStaticVertexBuffer env data sizeof_T structured_byte_stride).res = .ok buffer) :
    buffer = ⟨buffer_desc (to_u32 (size_t_mul data.length sizeof_T)) .IMMUTABLE
      D3D11_BIND_VERTEX_BUFFER 0 0 structured_byte_stride, { pSysMem := Storable.mem data }⟩ := by
  rw [CreateStaticVertexBuffer, CreateBuffer_res] at h
  simp only [ite_halt_eq_ok, Res.ok.injEq] at h
  exact h.2.symm

theorem CreateStaticIndexBuffer_res_ok {T : Type} [Storable T] (env : Env) (data : List T)
    (sizeof_T structured_byte_stride : Nat) (buffer : ID3D11Buffer)
    (h : (CreateStaticIndexBuffer env data sizeof_T structured_byte_stride).res = .ok buffer) :
    buffer = ⟨buffer_desc (to_u32 (size_t_mul data.length sizeof_T)) .DEFAULT
      D3D11_BIND_INDEX_BUFFER 0 0 structured_byte_stride, { pSysMem := Storable.mem data }⟩ := by
  rw [CreateStaticIndexBuffer, CreateBuffer_res] at h
  simp only [ite_halt_eq_ok, Res.ok.injEq] at h
  exact h.2.symm

theorem main_setup_ok (env : Env) (w : Window) (h : (main_setup env).res = .ok w) :
    ∃ vert_source vertex_blob pixel_source pixel_blob,
      env.fopen "shaders/VertexShader.hlsl" = some vert_source ∧
      (env.D3DCompile vert_source "vs_5_0").compiled_blob = some vertex_blob ∧
      env.fopen "shaders/PixelShader.hlsl" = some pixel_source ∧
      (env.D3DCompile pixel_source "ps_5_0").compiled_blob = some pixel_blob ∧
      w = ⟨1920, 1080, env.SDL_CreateWindow 1920 1080⟩ ∧
      gfx (main_setup env).trace
        = setup_gfx_calls env.DEBUG env.hwnd w vert_source vertex_blob pixel_source pixel_blob := by
  have h0 := h
  simp only [main_setup, bind_def, res_bind, elim_eq_ok] at h
  obtain ⟨window, hwin, _, hinit, vb, hvb, ib, hib, vsrc, hvs, vblob, hvc, psrc, hps, _, hpc,
    _, hil, _, has, _, h1, _, h2, _, h3, _, h4, _, h5, _, h6, hw⟩ := h
  have hvb_eq := CreateStaticVertexBuffer_res_ok env vers sizeof_f32 0 vb hvb
  have hib_eq := CreateStaticIndexBuffer_res_ok env ind sizeof_u32 0 ib hib
  subst hvb_eq
  subst hib_eq
  have hww : window = w := by
    simp only [pure_def, Res.ok.injEq] at hw
    exact hw
  subst hww
  have hwindow : window = ⟨1920, 1080, env.SDL_CreateWindow 1920 1080⟩ := by
    rw [Window_ctor_res] at hwin
    simp only [ite_halt_eq_ok, Res.ok.injEq] at hwin
    rw [← hwin.2]
    rfl
  obtain ⟨hvblob, hvgfx⟩ := CompileVertexShader_res_ok env vsrc vblob hvc
  obtain ⟨pblob, hpblob, hpgfx⟩ := CompilePixelShader_res_ok env psrc hpc
  have hvfile := ReadEntireFileAsString_res_ok env _ vsrc hvs
  have hpfile := ReadEntireFileAsString_res_ok env _ psrc hps
  refine ⟨vsrc, vblob, psrc, pblob, hvfile, hvblob, hpfile, hpblob, hwindow, ?_⟩
  simp only [main_setup, bind_def, trace_bind, hwin, hinit, hvb, hib, hvs, hvc, hps, hpc, hil,
    has, h1, h2, h3, h4, h5, h6, Res.elim_ok, gfx_append, hvgfx, hpgfx,
    (ReadEntireFileAsString_some env _ vsrc hvfile).2.1,
    (ReadEntireFileAsString_some env _ psrc hpfile).2.1,
    (InitGfx_trace env window).1 hinit, gfx_InitGfx_calls, Window_ctor_trace,
    CreateStaticVertexBuffer_trace, CreateStaticIndexBuffer_trace, assert_trace, call_trace,
    pure_def]
  rfl

/-! ## Conversions -/

/-- The shift leaves a significand of at most 24 bits, and of exactly 24 bits
when bits are dropped. -/
theorem f32_shift_spec (fuel n : Nat) (h : n < 2 ^ (24 + fuel)) :
    n / 2 ^ f32_shift fuel n < 2 ^ 24 ∧
    (0 < f32_shift fuel n → 2 ^ 23 ≤ n / 2 ^ f32_shift fuel n) := by
  induction fuel generalizing n with
  | zero =>
    simp only [f32_shift, Nat.pow_zero, Nat.div_one]
    exact ⟨h, fun h0 => absurd h0 (lt_irrefl 0)⟩
  | succ k ih =>
    by_cases hlt : n < 2 ^ 24
    · simp only [f32_shift, if_pos hlt, Nat.pow_zero, Nat.div_one]
      exact ⟨hlt, fun h0 => absurd h0 (lt_irrefl 0)⟩
    · have hhalf : n / 2 < 2 ^ (24 + k) := by
        have : 2 ^ (24 + (k + 1)) = 2 * 2 ^ (24 + k) := by ring
        omega
      obtain ⟨h1, h2⟩ := ih (n / 2) hhalf
      have hdiv : n / 2 ^ (1 + f32_shift k (n / 2)) = n / 2 / 2 ^ f32_shift k (n / 2) := by
        rw [Nat.pow_add, Nat.pow_one, Nat.div_div_eq_div_mul]
      simp only [f32_shift, if_neg hlt, hdiv]
      refine ⟨h1, fun _ => ?_⟩
      rcases Nat.eq_zero_or_pos (f32_shift k (n / 2)) with h0 | h0
      · rw [h0, Nat.pow_zero, Nat.div_one]
        norm_num at hlt ⊢
        omega
      · exact h2 h0

theorem static_cast_f32_eq_iff (n : Nat) :
    static_cast_f32 n = (n : Int) ↔ f32_representable n := by
  unfold static_cast_f32 f32_representable
  generalize f32_shift 32 n = e
  have hpos : 0 < 2 ^ e := Nat.pow_pos (by norm_num)
  have hdm : 2 ^ e * (n / 2 ^ e) + n % 2 ^ e = n := Nat.div_add_mod n (2 ^ e)
  have hlt : n % 2 ^ e < 2 ^ e := Nat.mod_lt n hpos
  simp only [Nat.cast_inj]
  constructor
  · intro h
    by_contra hr
    split_ifs at h
    · have : (n / 2 ^ e + 1) * 2 ^ e = 2 ^ e * (n / 2 ^ e) + 2 ^ e := by ring
      omega
    · have : n / 2 ^ e * 2 ^ e = 2 ^ e * (n / 2 ^ e) := by ring
      omega
  · intro hr
    rw [hr] at hdm ⊢
    have hc : ¬ (2 ^ e < 2 * 0 ∨ 2 * 0 = 2 ^ e ∧ n / 2 ^ e % 2 = 1) := by omega
    rw [if_neg hc]
    have : n / 2 ^ e * 2 ^ e = 2 ^ e * (n / 2 ^ e) := by ring
    omega

theorem f32_representable_of_le (n : Nat) (h : n ≤ 2 ^ 24) : f32_representable n := by
  rcases Nat.lt_or_ge n (2 ^ 24) with hlt | hge
  · unfold f32_representable
    have : f32_shift 32 n = 0 := by
      unfold f32_shift
      rw [if_pos hlt]
    rw [this, Nat.pow_zero]
    exact Nat.mod_one n
  · have : n = 2 ^ 24 := le_antisymm h hge
    subst this
    decide

theorem to_int_eq_iff (n : Nat) (h : n < 2 ^ 32) : to_int n = (n : Int) ↔ n < 2 ^ 31 := by
  unfold to_int
  rw [Nat.mod_eq_of_lt h]
  norm_num at h ⊢

theorem mem_InitGfx_trace (env : Env) (window : Window) (c : Call)
    (h : c ∈ (InitGfx env window).trace) : c ∈ InitGfx_calls env.DEBUG env.hwnd window := by
  obtain ⟨rest, hrest⟩ := (InitGfx_trace env window).2
  rw [hrest]
  exact List.mem_append_left _ h

/-! ## Start-up on every path -/

theorem Within_bind {α β : Type} (x : Run α) (f : α → Run β) (P : Call → Prop)
    (H : Halt → Prop) (hx : x.Within P H) (hf : ∀ a, x.res = .ok a → (f a).Within P H) :
    (x.bind f).Within P H := by
  cases hr : x.res with
  | ok a =>
    obtain ⟨h1, h2⟩ := hf a hr
    constructor
    · intro c hc
      rw [trace_bind, hr, Res.elim_ok, List.mem_append] at hc
      rcases hc with hc | hc
      · exact hx.1 c hc
      · exact h1 c hc
    · intro h hh
      rw [res_bind, hr, Res.elim_ok] at hh
      exact h2 h hh
  | halt e =>
    constructor
    · intro c hc
      rw [trace_bind, hr, Res.elim_halt, List.append_nil] at hc
      exact hx.1 c hc
    · intro h hh
      rw [res_bind, hr, Res.elim_halt] at hh
      cases hh
      exact hx.2 e hr

theorem InitGfx_res_cases (env : Env) (window : Window) :
    (InitGfx env window).res = .ok () ∨ (InitGfx env window).res = .halt .abort := by
  simp only [InitGfx, CHECK, bind_def, pure_def, trace_bind, res_bind, call, assert, halt,
    res_ite, trace_ite, Res.elim_ok, Res.elim_halt, Res.elim_ite, ite_self, beq_iff_eq]
  split_ifs <;> simp

theorem Window_ctor_Within (env : Env) (width height : Nat) (P : Call → Prop) (H : Halt → Prop)
    (hP : ∀ title x y w h flags, P (.SDL_CreateWindow title x y w h flags)) (hH : H .abort) :
    (Window.ctor env width height).Within P H := by
  constructor
  · intro c hc
    rw [Window_ctor_trace, List.mem_singleton] at hc
    subst hc
    exact hP ..
  · intro h hh
    rw [Window_ctor_res] at hh
    split_ifs at hh
    cases hh
    exact hH

theorem InitGfx_Within (env : Env) (window : Window) (P : Call → Prop) (H : Halt → Prop)
    (hP : ∀ c ∈ InitGfx_calls env.DEBUG env.hwnd window, P c) (hH : H .abort) :
    (InitGfx env window).Within P H := by
  constructor
  · intro c hc
    exact hP c (mem_InitGfx_trace env window c hc)
  · intro h hh
    rcases InitGfx_res_cases env window with h1 | h1
    · rw [h1] at hh
      cases hh
    · rw [h1] at hh
      cases hh
      exact hH

theorem CreateBuffer_Within (env : Env) (initial_data : SysMem) (size : Nat)
    (usage : D3D11_USAGE) (bind_flag cpu_access_flag misc_flag structured_byte_stride : Nat)
    (P : Call → Prop) (H : Halt → Prop) (hP : ∀ desc init, P (.CreateBuffer desc init))
    (hH : H .abort) :
    (CreateBuffer env initial_data size usage bind_flag cpu_access_flag misc_flag
      structured_byte_stride).Within P H := by
  constructor
  · intro c hc
    rw [CreateBuffer_trace, List.mem_singleton] at hc
    subst hc
    exact hP _ _
  · intro h hh
    rw [CreateBuffer_res] at hh
    split_ifs at hh
    cases hh
    exact hH

theorem ReadEntireFileAsString_Within (env : Env) (file : String) (P : Call → Prop)
    (H : Halt → Prop) (hP : ∀ c : Call, c.stage = none → P c) (hH : H (.exit EXIT_FAILURE)) :
    (ReadEntireFileAsString env file).Within P H := by
  cases hf : env.fopen file with
  | none =>
    rw [ReadEntireFileAsString_none env file hf]
    constructor
    · intro c hc
      simp only [List.mem_cons, List.mem_singleton, List.not_mem_nil, or_false] at hc
      rcases hc with rfl | rfl <;> exact hP _ rfl
    · intro h hh
      cases hh
      exact hH
  | some text =>
    obtain ⟨h1, _, h3⟩ := ReadEntireFileAsString_some env file text hf
    constructor
    · intro c hc
      exact hP c (h3 c hc)
    · intro h hh
      rw [h1] at hh
      cases hh

theorem CompileVertexShader_Within (env : Env) (src : String) (P : Call → Prop)
    (H : Halt → Prop) (hP1 : ∀ f, P (.D3DCompile src "main" "vs_5_0" f 0))
    (hP2 : ∀ text, P (.printf text)) (hP3 : ∀ blob, P (.CreateVertexShader blob))
    (hH1 : H .abort) (hH2 : H .null_deref) :
    (CompileVertexShader env src).Within P H := by
  have hcs : ∀ c ∈ (CompileShader env src "vs_5_0").trace, P c := by
    intro c hc
    rw [CompileShader_trace] at hc
    simp only [List.mem_cons] at hc
    rcases hc with rfl | hc
    · exact hP1 _
    · split at hc
      · simp only [List.mem_cons] at hc
        rcases hc with rfl | hc
        · exact hP2 _
        · split at hc
          · simp only [List.mem_singleton] at hc
            subst hc
            exact hP2 _
          · cases hc
      · cases hc
  cases hb : (env.D3DCompile src "vs_5_0").compiled_blob with
  | none =>
    rw [CompileVertexShader_none env src hb]
    exact ⟨hcs, fun h hh => by cases hh; exact hH2⟩
  | some blob =>
    rw [CompileVertexShader_some env src blob hb]
    constructor
    · intro c hc
      simp only [List.mem_append, List.mem_singleton] at hc
      rcases hc with hc | rfl
      · exact hcs c hc
      · exact hP3 _
    · intro h hh
      simp only at hh
      split_ifs at hh
      cases hh
      exact hH1

theorem main_setup_missing_vertex (env : Env)
    (h : env.fopen "shaders/VertexShader.hlsl" = none) :
    (main_setup env).Within (fun c => c.is_compile = false)
      (fun e => e = .abort ∨ e = .exit EXIT_FAILURE) := by
  simp only [main_setup, bind_def]
  refine Within_bind _ _ _ _ (Window_ctor_Within _ _ _ _ _ (fun _ _ _ _ _ _ => rfl) (Or.inl rfl))
    (fun window _ => ?_)
  refine Within_bind _ _ _ _
    (InitGfx_Within _ _ _ _ (by intro c hc; revert c; simp [InitGfx_calls, Call.is_compile])
      (Or.inl rfl)) (fun _ _ => ?_)
  refine Within_bind _ _ _ _ (CreateBuffer_Within _ _ _ _ _ _ _ _ _ _ (fun _ _ => rfl) (Or.inl rfl))
    (fun _ _ => ?_)
  refine Within_bind _ _ _ _ (CreateBuffer_Within _ _ _ _ _ _ _ _ _ _ (fun _ _ => rfl) (Or.inl rfl))
    (fun _ _ => ?_)
  refine Within_bind _ _ _ _
    (ReadEntireFileAsString_Within _ _ _ _
      (by intro c hc; cases c <;> first | rfl | simp [Call.stage] at hc) (Or.inr rfl))
    (fun text htext => ?_)
  rw [ReadEntireFileAsString_none env _ h] at htext
  cases htext

theorem main_setup_missing_pixel (env : Env)
    (h : env.fopen "shaders/PixelShader.hlsl" = none) :
    (main_setup env).Within (fun c => c.compiles "ps_5_0" = false)
      (fun e => e = .abort ∨ e = .null_deref ∨ e = .exit EXIT_FAILURE) := by
  simp only [main_setup, bind_def]
  refine Within_bind _ _ _ _
    (Window_ctor_Within _ _ _ _ _ (fun _ _ _ _ _ _ => rfl) (Or.inl rfl)) (fun window _ => ?_)
  refine Within_bind _ _ _ _
    (InitGfx_Within _ _ _ _ (by intro c hc; revert c; simp [InitGfx_calls, Call.compiles])
      (Or.inl rfl)) (fun _ _ => ?_)
  refine Within_bind _ _ _ _ (CreateBuffer_Within _ _ _ _ _ _ _ _ _ _ (fun _ _ => rfl) (Or.inl rfl))
    (fun _ _ => ?_)
  refine Within_bind _ _ _ _ (CreateBuffer_Within _ _ _ _ _ _ _ _ _ _ (fun _ _ => rfl) (Or.inl rfl))
    (fun _ _ => ?_)
  refine Within_bind _ _ _ _
    (ReadEntireFileAsString_Within _ _ _ _
      (by intro c hc; cases c <;> first | rfl | simp [Call.stage] at hc)
      (Or.inr (Or.inr rfl)))
    (fun vert_source _ => ?_)
  refine Within_bind _ _ _ _
    (CompileVertexShader_Within _ _ _ _ (fun _ => by simp [Call.compiles]) (fun _ => rfl)
      (fun _ => rfl)
      (Or.inl rfl) (Or.inr (Or.inl rfl)))
    (fun _ _ => ?_)
  refine Within_bind _ _ _ _
    (ReadEntireFileAsString_Within _ _ _ _
      (by intro c hc; cases c <;> first | rfl | simp [Call.stage] at hc)
      (Or.inr (Or.inr rfl)))
    (fun text htext => ?_)
  rw [ReadEntireFileAsString_none env _ h] at htext
  cases htext

/-! ## The whole run -/

theorem gfx_main_loop (batches : List (List SDL_Event)) :
    gfx (main_loop batches).trace = (List.replicate (frames_drawn batches) frame_calls).flatten := by
  induction batches with
  | nil => rfl
  | cons b bs ih =>
    cases hb : has_quit b with
    | true =>
      obtain ⟨pre, e, post, _, _, _, hrun⟩ := loop_body_quit b hb
      rw [main_loop_cons_quit b bs hb, hrun]
      simp only [frames_drawn, hb, if_true, List.replicate_zero, List.flatten_nil]
      have := gfx_polls ((pre ++ [e]).map some)
      simpa [List.map_map] using this
    | false =>
      rw [main_loop_cons_no_quit b bs hb, loop_body_no_quit b hb]
      have h1 : gfx (List.map (fun e => Call.SDL_PollEvent (some e)) b) = [] := by
        have := gfx_polls (b.map some)
        simpa [List.map_map] using this
      have h2 : gfx [Call.SDL_PollEvent none] = [] := rfl
      have h3 : gfx frame_calls = frame_calls := rfl
      simp only [gfx_append, ih, h1, h2, h3, frames_drawn, hb, List.replicate_succ,
        List.flatten_cons, List.nil_append]
      rfl

theorem frames_drawn_append (before : List (List SDL_Event)) (batch : List SDL_Event)
    (later : List (List SDL_Event)) (hbefore : ∀ b ∈ before, has_quit b = false)
    (hquit : has_quit batch = true) :
    frames_drawn (before ++ batch :: later) = before.length := by
  induction before with
  | nil => simp [frames_drawn, hquit]
  | cons b bs ih =>
    have hb : has_quit b = false := hbefore b (List.mem_cons_self _ _)
    have hbs : ∀ x ∈ bs, has_quit x = false := fun x hx => hbefore x (List.mem_cons_of_mem _ hx)
    simp [frames_drawn, hb, ih hbs]

theorem main_loop_calls (batches : List (List SDL_Event)) :
    ∀ c ∈ (main_loop batches).trace, (∃ r, c = Call.SDL_PollEvent r) ∨ c ∈ frame_calls := by
  induction batches with
  | nil => intro c hc; cases hc
  | cons b bs ih =>
    intro c hc
    cases hb : has_quit b with
    | true =>
      obtain ⟨pre, e, post, _, _, _, hrun⟩ := loop_body_quit b hb
      rw [main_loop_cons_quit b bs hb, hrun] at hc
      simp only [List.mem_map] at hc
      obtain ⟨x, _, rfl⟩ := hc
      exact Or.inl ⟨_, rfl⟩
    | false =>
      rw [main_loop_cons_no_quit b bs hb, loop_body_no_quit b hb] at hc
      simp only [List.mem_append, List.mem_map, List.mem_singleton] at hc
      rcases hc with ((⟨x, _, rfl⟩ | rfl) | hc) | hc
      · exact Or.inl ⟨_, rfl⟩
      · exact Or.inl ⟨_, rfl⟩
      · exact Or.inr hc
      · exact ih c hc

theorem gfx_main (env : Env) (w : Window) (batches : List (List SDL_Event))
    (h : (main_setup env).res = .ok w) :
    gfx (main env batches).trace
      = gfx (main_setup env).trace
        ++ (List.replicate (frames_drawn batches) frame_calls).flatten := by
  rw [(main_of_setup_ok env w batches h).2, gfx_append, gfx_append, gfx_main_loop]
  cases (main_loop batches).res <;> simp [Res.elim, gfx, Call.is_gfx]

theorem stage_of_gfx (t : List Call) : t.filterMap Call.stage = (gfx t).filterMap Call.stage := by
  induction t with
  | nil => rfl
  | cons c cs ih =>
    cases c <;> simp [gfx, Call.is_gfx, Call.stage, List.filterMap_cons] <;> simpa [gfx] using ih

theorem stage_frames (n : Nat) :
    (List.replicate n frame_calls).flatten.filterMap Call.stage = List.replicate (4 * n) .loop := by
  induction n with
  | zero => rfl
  | succ k ih =>
    rw [List.replicate_succ, List.flatten_cons, List.filterMap_append, ih]
    have : 4 * (k + 1) = 4 + 4 * k := by ring
    rw [this, List.replicate_add]
    rfl

theorem stage_setup_gfx_calls (debug : Bool) (hwnd : Nat) (window : Window)
    (vert_source : String) (vertex_blob : Blob) (pixel_source : String) (pixel_blob : Blob) :
    (setup_gfx_calls debug hwnd window vert_source vertex_blob pixel_source
      pixel_blob).filterMap Call.stage = setup_stages := by
  simp [setup_gfx_calls, setup_stages, Call.stage, List.filterMap_cons, List.replicate]

theorem is_gfx_of_is_creation (c : Call) (h : c.is_creation = true) : c.is_gfx = true := by
  cases c <;> first | rfl | cases h

theorem creation_of_gfx (t : List Call) :
    t.filter Call.is_creation = (gfx t).filter Call.is_creation := by
  rw [gfx, List.filter_filter]
  apply List.filter_congr
  intro c _
  cases hc : c.is_creation with
  | false => rfl
  | true => rw [is_gfx_of_is_creation c hc]; rfl

theorem main_loop_not_setup_calls (batches : List (List SDL_Event)) :
    ∀ c ∈ (main_loop batches).trace,
      c.is_creation = false ∧ c.is_binding = false ∧ c.is_destruction = false := by
  intro c hc
  rcases main_loop_calls batches c hc with ⟨r, rfl⟩ | hmem
  · exact ⟨rfl, rfl, rfl⟩
  · simp only [frame_calls, List.mem_cons, List.mem_singleton, List.not_mem_nil, or_false] at hmem
    rcases hmem with rfl | rfl | rfl | rfl <;> exact ⟨rfl, rfl, rfl⟩

theorem mem_main_trace (env : Env) (w : Window) (batches : List (List SDL_Event))
    (h : (main_setup env).res = .ok w) :
    ∃ vert_source vertex_blob pixel_source pixel_blob,
      (∀ c ∈ setup_gfx_calls env.DEBUG env.hwnd w vert_source vertex_blob pixel_source
          pixel_blob, c ∈ (main env batches).trace) ∧
      (∀ c ∈ (main env batches).trace, c.is_gfx = true →
        c ∈ setup_gfx_calls env.DEBUG env.hwnd w vert_source vertex_blob pixel_source
            pixel_blob ∨ c ∈ frame_calls) := by
  obtain ⟨vs, vb, ps, pb, _, _, _, _, _, hgfx⟩ := main_setup_ok env w h
  have hmain := gfx_main env w batches h
  rw [hgfx] at hmain
  refine ⟨vs, vb, ps, pb, ?_, ?_⟩
  · intro c hc
    have : c ∈ gfx (main env batches).trace := by
      rw [hmain]
      exact List.mem_append_left _ hc
    exact (List.mem_filter.mp this).1
  · intro c hc hg
    have : c ∈ gfx (main env batches).trace := List.mem_filter.mpr ⟨hc, hg⟩
    rw [hmain, List.mem_append] at this
    rcases this with h1 | h1
    · exact Or.inl h1
    · right
      rw [List.mem_flatten] at h1
      obtain ⟨l, hl, hcl⟩ := h1
      rw [List.eq_of_mem_replicate hl] at hcl
      exact hcl

/-! ## The claims -/

/-- C1.  Once start-up has succeeded, let any number of quit-free batches be
followed by a batch that holds a quit event at any position.  The pass that
polls this batch issues only `SDL_PollEvent` calls, for the events up to and
including the first quit event (so no clear, draw or present call, and no
graphics call at all), and takes `return 0`.  `main` then returns `0`, the
exit status of the process is `0`, and its trace is the trace of the run up
to that pass, followed by these polls and by the `SDL_DestroyWindow` of the
destructor of `window`; the batches that come later play no role. -/
theorem quit_event_ends_main (env : Env) (w : Window) (before : List (List SDL_Event))
    (batch : List SDL_Event) (later : List (List SDL_Event))
    (hsetup : (main_setup env).res = .ok w)
    (hbefore : ∀ b ∈ before, has_quit b = false)
    (hquit : has_quit batch = true) :
    (∃ pre e post, batch = pre ++ e :: post ∧ has_quit pre = false ∧ e.type = SDL_QUIT ∧
      (loop_body batch).trace = (pre ++ [e]).map (fun x => Call.SDL_PollEvent (some x))) ∧
    (loop_body batch).res = .ok (some 0) ∧
    gfx (loop_body batch).trace = [] ∧
    (main env (before ++ batch :: later)).res = .ok 0 ∧
    exit_status (main env (before ++ batch :: later)).res = some 0 ∧
    (main env before).res = .halt .pending ∧
    (main env (before ++ batch :: later)).trace
      = (main env before).trace ++ (loop_body batch).trace
        ++ [Call.SDL_DestroyWindow w.sdl_window] := by
  obtain ⟨pre, e, post, hb, hpre, he, hrun⟩ := loop_body_quit batch hquit
  obtain ⟨hpend, happ⟩ := main_loop_append before (batch :: later) hbefore
  have hloop : main_loop (before ++ batch :: later)
      = ⟨(main_loop before).trace ++ (loop_body batch).trace, .ok 0⟩ := by
    rw [happ, main_loop_cons_quit batch later hquit]
  obtain ⟨hres, htrace⟩ := main_of_setup_ok env w (before ++ batch :: later) hsetup
  obtain ⟨hres0, htrace0⟩ := main_of_setup_ok env w before hsetup
  have hres1 : (main env (before ++ batch :: later)).res = .ok 0 := by
    rw [hres, hloop]
  refine ⟨⟨pre, e, post, hb, hpre, he, by rw [hrun]⟩, by rw [hrun], ?_, hres1, ?_, ?_, ?_⟩
  · rw [hrun]
    have := gfx_polls ((pre ++ [e]).map some)
    simpa [List.map_map] using this
  · rw [hres1]
    rfl
  · rw [hres0, hpend]
  · rw [htrace, htrace0, hloop, hpend]
    simp [Res.elim]

/-- C1, witness: one frame, then a batch whose second event is the quit
event. -/
theorem quit_event_ends_main_witness :
    (main_setup env_ok).res = .ok ⟨1920, 1080, some 1⟩ ∧
    has_quit [⟨0x200⟩, ⟨SDL_QUIT⟩, ⟨0x300⟩] = true ∧
    (main env_ok ([[⟨0x200⟩]] ++ [⟨0x200⟩, ⟨SDL_QUIT⟩, ⟨0x300⟩] :: [[]])).res = .ok 0 ∧
    gfx (loop_body [⟨0x200⟩, ⟨SDL_QUIT⟩, ⟨0x300⟩]).trace = [] :=
  have h := quit_event_ends_main env_ok ⟨1920, 1080, some 1⟩ [[⟨0x200⟩]]
    [⟨0x200⟩, ⟨SDL_QUIT⟩, ⟨0x300⟩] [[]] (by decide) (by decide) (by decide)
  ⟨by decide, by decide, h.2.2.2.1, h.2.2.1⟩

/-- C2.  A pass of the loop body whose batch of pending events holds no quit
event polls the events (one `SDL_PollEvent` per event and a last one that
returns `0`) and then issues exactly four graphics calls, in this order: a
clear of the colour target to `(0, 0, 0, 1)`, a clear of the depth target
(flag `D3D11_CLEAR_DEPTH`) to depth `1.0`, one `DrawIndexed` of `3` indices
from start index `0` and base vertex `0`, and one `Present` with sync interval
`1`; the pass does not leave `main`, and the loop goes on with the next
batch. -/
theorem frame_without_quit (batch : List SDL_Event) (later : List (List SDL_Event))
    (h : has_quit batch = false) :
    (loop_body batch).res = .ok none ∧
    gfx (loop_body batch).trace
      = [Call.ClearRenderTargetView [0, 0, 0, 1],
         Call.ClearDepthStencilView D3D11_CLEAR_DEPTH 1 0,
         Call.DrawIndexed 3 0 0,
         Call.Present 1 0] ∧
    (loop_body batch).trace
      = batch.map (fun e => Call.SDL_PollEvent (some e)) ++ [Call.SDL_PollEvent none]
        ++ [Call.ClearRenderTargetView [0, 0, 0, 1],
            Call.ClearDepthStencilView D3D11_CLEAR_DEPTH 1 0,
            Call.DrawIndexed 3 0 0,
            Call.Present 1 0] ∧
    main_loop (batch :: later)
      = ⟨(loop_body batch).trace ++ (main_loop later).trace, (main_loop later).res⟩ := by
  refine ⟨?_, ?_, ?_, main_loop_cons_no_quit batch later h⟩
  · rw [loop_body_no_quit batch h]
  · rw [loop_body_no_quit batch h]
    have h1 : gfx (List.map (fun e => Call.SDL_PollEvent (some e)) batch) = [] := by
      have := gfx_polls (batch.map some)
      simpa [List.map_map] using this
    simp only [gfx_append, h1, List.nil_append]
    rfl
  · rw [loop_body_no_quit batch h]
    rfl

/-- C2, witness: a batch of two non-quit events. -/
theorem frame_without_quit_witness :
    has_quit [⟨0x200⟩, ⟨0x300⟩] = false ∧
    gfx (loop_body [⟨0x200⟩, ⟨0x300⟩]).trace
      = [Call.ClearRenderTargetView [0, 0, 0, 1],
         Call.ClearDepthStencilView D3D11_CLEAR_DEPTH 1 0,
         Call.DrawIndexed 3 0 0,
         Call.Present 1 0] :=
  ⟨by decide, (frame_without_quit [⟨0x200⟩, ⟨0x300⟩] [] (by decide)).2.1⟩

/-- C3 (as amended).  For a `std::vector<T>` of `N` elements with
`sizeof(T) = S`, each vector-taking wrapper (`CreateStaticVertexBuffer`,
`CreateStaticIndexBuffer`, `CreateConstantBuffer`) issues exactly one
`CreateBuffer` call, on the array of the vector, whose descriptor has
`ByteWidth = (N * S) mod 2 ^ 32`; the byte width equals `N * S` exactly if and
only if `N * S < 2 ^ 32`. -/
theorem vector_buffer_byte_width {T : Type} [Storable T] (env : Env) (data : List T)
    (sizeof_T structured_byte_stride : Nat) (usage : D3D11_USAGE) :
    (∃ desc, (CreateStaticVertexBuffer env data sizeof_T structured_byte_stride).trace
        = [Call.CreateBuffer desc { pSysMem := Storable.mem data }] ∧
      desc.ByteWidth = (data.length * sizeof_T) % 2 ^ 32 ∧
      (desc.ByteWidth = data.length * sizeof_T ↔ data.length * sizeof_T < 2 ^ 32)) ∧
    (∃ desc, (CreateStaticIndexBuffer env data sizeof_T structured_byte_stride).trace
        = [Call.CreateBuffer desc { pSysMem := Storable.mem data }] ∧
      desc.ByteWidth = (data.length * sizeof_T) % 2 ^ 32 ∧
      (desc.ByteWidth = data.length * sizeof_T ↔ data.length * sizeof_T < 2 ^ 32)) ∧
    (∃ desc, (CreateConstantBuffer env data sizeof_T usage structured_byte_stride).trace
        = [Call.CreateBuffer desc { pSysMem := Storable.mem data }] ∧
      desc.ByteWidth = (data.length * sizeof_T) % 2 ^ 32 ∧
      (desc.ByteWidth = data.length * sizeof_T ↔ data.length * sizeof_T < 2 ^ 32)) := by
  have key : to_u32 (size_t_mul data.length sizeof_T) = (data.length * sizeof_T) % 2 ^ 32 := by
    unfold to_u32 size_t_mul
    exact Nat.mod_mod_of_dvd _ (Dvd.intro (2 ^ 32) (by norm_num))
  have hiff : (data.length * sizeof_T) % 2 ^ 32 = data.length * sizeof_T ↔
      data.length * sizeof_T < 2 ^ 32 := Nat.mod_eq_iff_lt (by norm_num)
  refine ⟨?_, ?_, ?_⟩
  · exact ⟨_, CreateStaticVertexBuffer_trace .., key, by rw [buffer_desc, key]; exact hiff⟩
  · exact ⟨_, CreateStaticIndexBuffer_trace .., key, by rw [buffer_desc, key]; exact hiff⟩
  · exact ⟨_, CreateConstantBuffer_trace .., key, by rw [buffer_desc, key]; exact hiff⟩

/-- C3, counterexample.  A vector of `2 ^ 30` floats (4 GiB) passed to
`CreateStaticVertexBuffer` yields a descriptor whose `ByteWidth` is `0`, not
`N * S = 4294967296`. -/
theorem vector_buffer_byte_width_truncated :
    (CreateStaticVertexBuffer env_ok (List.replicate 1073741824 (0 : f32)) sizeof_f32 0).trace
        = [Call.CreateBuffer
            { ByteWidth := 0, Usage := .IMMUTABLE, BindFlags := D3D11_BIND_VERTEX_BUFFER,
              CPUAccessFlags := 0, MiscFlags := 0, StructureByteStride := 0 }
            { pSysMem := .f32s (List.replicate 1073741824 0) }] ∧
      (0 : Nat) ≠ (List.replicate 1073741824 (0 : f32)).length * sizeof_f32 := by
  constructor
  · rw [CreateStaticVertexBuffer_trace, List.length_replicate]
    rfl
  · rw [List.length_replicate]
    decide

/-- C4 (as amended).  Whatever the arguments, the descriptor handed to the
device has usage immutable and the vertex-buffer binding through both
`CreateStaticVertexBuffer` overloads, usage default and the index-buffer
binding through both `CreateStaticIndexBuffer` overloads, and usage dynamic,
CPU write access and the constant-buffer binding through the vector overload
of `CreateConstantBuffer` (its `usage` argument is ignored).  The raw-pointer
overload of `CreateConstantBuffer` fixes only the constant-buffer binding: its
descriptor carries the usage and the CPU-access flags the caller passes. -/
theorem buffer_wrapper_policies {T : Type} [Storable T] (env : Env) (data : List T)
    (initial_data : SysMem) (sizeof_T size structured_byte_stride : Nat) (usage : D3D11_USAGE)
    (cpu_access_flag : D3D11_CPU_ACCESS_FLAG) (misc_flag : D3D11_RESOURCE_MISC_FLAG) :
    (∃ desc, (CreateStaticVertexBuffer env data sizeof_T structured_byte_stride).trace
        = [Call.CreateBuffer desc { pSysMem := Storable.mem data }] ∧
      desc.Usage = .IMMUTABLE ∧ desc.BindFlags = D3D11_BIND_VERTEX_BUFFER) ∧
    (∃ desc, (CreateStaticVertexBuffer_ptr env initial_data size structured_byte_stride).trace
        = [Call.CreateBuffer desc { pSysMem := initial_data }] ∧
      desc.Usage = .IMMUTABLE ∧ desc.BindFlags = D3D11_BIND_VERTEX_BUFFER) ∧
    (∃ desc, (CreateStaticIndexBuffer env data sizeof_T structured_byte_stride).trace
        = [Call.CreateBuffer desc { pSysMem := Storable.mem data }] ∧
      desc.Usage = .DEFAULT ∧ desc.BindFlags = D3D11_BIND_INDEX_BUFFER) ∧
    (∃ desc, (CreateStaticIndexBuffer_ptr env initial_data size structured_byte_stride).trace
        = [Call.CreateBuffer desc { pSysMem := initial_data }] ∧
      desc.Usage = .DEFAULT ∧ desc.BindFlags = D3D11_BIND_INDEX_BUFFER) ∧
    (∃ desc, (CreateConstantBuffer env data sizeof_T usage structured_byte_stride).trace
        = [Call.CreateBuffer desc { pSysMem := Storable.mem data }] ∧
      desc.Usage = .DYNAMIC ∧ desc.CPUAccessFlags = D3D11_CPU_ACCESS_WRITE ∧
      desc.BindFlags = D3D11_BIND_CONSTANT_BUFFER) ∧
    (∃ desc, (CreateConstantBuffer_ptr env initial_data size usage cpu_access_flag misc_flag
          structured_byte_stride).trace = [Call.CreateBuffer desc { pSysMem := initial_data }] ∧
      desc.Usage = usage ∧ desc.CPUAccessFlags = cpu_access_flag ∧
      desc.BindFlags = D3D11_BIND_CONSTANT_BUFFER) :=
  ⟨⟨_, CreateStaticVertexBuffer_trace .., rfl, rfl⟩,
   ⟨_, CreateBuffer_trace .., rfl, rfl⟩,
   ⟨_, CreateStaticIndexBuffer_trace .., rfl, rfl⟩,
   ⟨_, CreateBuffer_trace .., rfl, rfl⟩,
   ⟨_, CreateConstantBuffer_trace .., rfl, rfl, rfl⟩,
   ⟨_, CreateBuffer_trace .., rfl, rfl, rfl⟩⟩

/-- C4, counterexample.  The raw-pointer overload of `CreateConstantBuffer`
called with usage default and no CPU access hands the device a descriptor
whose usage is default, not dynamic, and whose CPU-access flags are `0`, not
`D3D11_CPU_ACCESS_WRITE`. -/
theorem constant_buffer_ptr_policy_not_fixed :
    (CreateConstantBuffer_ptr env_ok (.u8s (List.replicate 16 0)) 16 .DEFAULT 0 0 0).trace
        = [Call.CreateBuffer
            { ByteWidth := 16, Usage := .DEFAULT, BindFlags := D3D11_BIND_CONSTANT_BUFFER,
              CPUAccessFlags := 0, MiscFlags := 0, StructureByteStride := 0 }
            { pSysMem := .u8s (List.replicate 16 0) }] ∧
      D3D11_USAGE.DEFAULT ≠ D3D11_USAGE.DYNAMIC ∧ (0 : Nat) ≠ D3D11_CPU_ACCESS_WRITE := by
  decide

/-- C5 (as amended).  For all `u32` values `width`, `height`:
the `Window` constructor issues one `SDL_CreateWindow` call whose `int`
arguments are the two's-complement conversions of `width` and `height`, equal
to the requested values exactly when these are below `2 ^ 31`; in `InitGfx`
every swap-chain descriptor and every depth-stencil descriptor handed to the
device has exactly the requested width and height; every viewport bound has
top-left `(0, 0)` and as width and height the `f32` conversions of the
requested values, which equal them exactly when these are representable in
single precision, as every value up to `2 ^ 24` is; and a run of `InitGfx`
that returns has issued the three calls. -/
theorem dimension_fidelity (env : Env) (width height : Nat) (sdl_window : Option Nat)
    (hw : width < 2 ^ 32) (hh : height < 2 ^ 32) :
    (Window.ctor env width height).trace
      = [Call.SDL_CreateWindow "win2" SDL_WINDOWPOS_UNDEFINED SDL_WINDOWPOS_UNDEFINED
          (to_int width) (to_int height) SDL_WINDOW_SHOWN] ∧
    ((to_int width = (width : Int) ∧ to_int height = (height : Int)) ↔
      (width < 2 ^ 31 ∧ height < 2 ^ 31)) ∧
    (∀ desc, Call.CreateSwapChain desc ∈ (InitGfx env ⟨width, height, sdl_window⟩).trace →
      desc.BufferDesc.Width = width ∧ desc.BufferDesc.Height = height) ∧
    (∀ desc, Call.CreateTexture2D desc ∈ (InitGfx env ⟨width, height, sdl_window⟩).trace →
      desc.Width = width ∧ desc.Height = height) ∧
    (∀ n viewport, Call.RSSetViewports n viewport
        ∈ (InitGfx env ⟨width, height, sdl_window⟩).trace →
      viewport.TopLeftX = 0 ∧ viewport.TopLeftY = 0 ∧
      viewport.Width = static_cast_f32 width ∧ viewport.Height = static_cast_f32 height) ∧
    ((static_cast_f32 width = (width : Int) ∧ static_cast_f32 height = (height : Int)) ↔
      (f32_representable width ∧ f32_representable height)) ∧
    ((width ≤ 2 ^ 24 → f32_representable width) ∧
      (height ≤ 2 ^ 24 → f32_representable height)) ∧
    ((InitGfx env ⟨width, height, sdl_window⟩).res = .ok () →
      ∃ swap depth viewport,
        Call.CreateSwapChain swap ∈ (InitGfx env ⟨width, height, sdl_window⟩).trace ∧
        Call.CreateTexture2D depth ∈ (InitGfx env ⟨width, height, sdl_window⟩).trace ∧
        Call.RSSetViewports 1 viewport ∈ (InitGfx env ⟨width, height, sdl_window⟩).trace) := by
  have hwu : to_u32 width = width := Nat.mod_eq_of_lt hw
  have hhu : to_u32 height = height := Nat.mod_eq_of_lt hh
  refine ⟨Window_ctor_trace env width height, ?_, ?_, ?_, ?_, ?_, ?_, ?_⟩
  · rw [to_int_eq_iff width hw, to_int_eq_iff height hh]
  · intro desc hmem
    have := mem_InitGfx_trace env _ _ hmem
    simp only [InitGfx_calls, List.mem_cons, List.mem_singleton, List.not_mem_nil,
      Call.CreateSwapChain.injEq, reduceCtorEq, false_or, or_false] at this
    subst this
    exact ⟨hwu, hhu⟩
  · intro desc hmem
    have := mem_InitGfx_trace env _ _ hmem
    simp only [InitGfx_calls, List.mem_cons, List.mem_singleton, List.not_mem_nil,
      Call.CreateTexture2D.injEq, reduceCtorEq, false_or, or_false] at this
    subst this
    exact ⟨hwu, hhu⟩
  · intro n viewport hmem
    have := mem_InitGfx_trace env _ _ hmem
    simp only [InitGfx_calls, List.mem_cons, List.mem_singleton, List.not_mem_nil,
      Call.RSSetViewports.injEq, reduceCtorEq, false_or, or_false] at this
    obtain ⟨_, rfl⟩ := this
    exact ⟨rfl, rfl, rfl, rfl⟩
  · rw [static_cast_f32_eq_iff, static_cast_f32_eq_iff]
  · exact ⟨f32_representable_of_le width, f32_representable_of_le height⟩
  · intro hok
    rw [(InitGfx_trace env _).1 hok]
    exact ⟨swap_chain_desc env.hwnd ⟨width, height, sdl_window⟩,
      depthStencilDesc ⟨width, height, sdl_window⟩, viewport_of ⟨width, height, sdl_window⟩,
      by simp [InitGfx_calls], by simp [InitGfx_calls], by simp [InitGfx_calls]⟩

/-- C5, witness: the dimensions `main` asks for, 1920 by 1080. -/
theorem dimension_fidelity_witness :
    (1920 < 2 ^ 32 ∧ 1080 < 2 ^ 32) ∧
    (∀ desc, Call.CreateSwapChain desc ∈ (InitGfx env_ok ⟨1920, 1080, some 1⟩).trace →
      desc.BufferDesc.Width = 1920 ∧ desc.BufferDesc.Height = 1080) ∧
    (InitGfx env_ok ⟨1920, 1080, some 1⟩).res = .ok () ∧
    static_cast_f32 1920 = 1920 ∧ static_cast_f32 1080 = 1080 ∧
    to_int 1920 = 1920 ∧ to_int 1080 = 1080 :=
  ⟨⟨by decide, by decide⟩,
   (dimension_fidelity env_ok 1920 1080 (some 1) (by decide) (by decide)).2.2.1,
   by decide, by decide, by decide, by decide, by decide⟩

/-- C5, counterexample.  With requested width `16777217` (`2 ^ 24 + 1`) and
height `1080`, every check passing, `InitGfx` binds a viewport of width
`16777216`; with requested width `4294967295` the window is created with the
`int` width `-1`. -/
theorem dimension_fidelity_fails :
    Call.RSSetViewports 1
        { TopLeftX := 0, TopLeftY := 0, Width := 16777216, Height := 1080,
          MinDepth := 0, MaxDepth := 1 }
      ∈ (InitGfx env_ok ⟨16777217, 1080, some 1⟩).trace ∧
    (16777216 : Int) ≠ ((16777217 : Nat) : Int) ∧
    (Window.ctor env_ok 4294967295 1080).trace
      = [Call.SDL_CreateWindow "win2" SDL_WINDOWPOS_UNDEFINED SDL_WINDOWPOS_UNDEFINED
          (-1) 1080 SDL_WINDOW_SHOWN] ∧
    (-1 : Int) ≠ ((4294967295 : Nat) : Int) := by
  decide

/-- C6 (the code, where the claim fails).  Let the compiler report failure for
a source and leave the compiled blob null.  `CompileShader` then returns the
null blob after printing the line `COMPILE ERR CODE: ...`, which is not empty
(and the compiler's own message when there is one); it does not stop the
process.  Both stage entry points, `CompileVertexShader` and
`CompilePixelShader`, go on to call through the null blob and stop there with
a null dereference, before any shader object is created. -/
theorem compile_failure_null_blob_dereferenced (env : Env) (src : String)
    (hvs_failed : FAILED (env.D3DCompile src "vs_5_0").result = true)
    (hvs_null : (env.D3DCompile src "vs_5_0").compiled_blob = none)
    (hps_failed : FAILED (env.D3DCompile src "ps_5_0").result = true)
    (hps_null : (env.D3DCompile src "ps_5_0").compiled_blob = none) :
    (CompileShader env src "vs_5_0").res = .ok none ∧
    (CompileShader env src "ps_5_0").res = .ok none ∧
    (∃ more, (CompileShader env src "vs_5_0").trace
        = Call.D3DCompile src "main" "vs_5_0" (compile_flags env.DEBUG) 0
          :: Call.printf ("COMPILE ERR CODE: " ++ format_x (env.D3DCompile src "vs_5_0").result
              ++ "\n")
          :: more) ∧
    (∃ more, (CompileShader env src "ps_5_0").trace
        = Call.D3DCompile src "main" "ps_5_0" (compile_flags env.DEBUG) 0
          :: Call.printf ("COMPILE ERR CODE: " ++ format_x (env.D3DCompile src "ps_5_0").result
              ++ "\n")
          :: more) ∧
    (∀ hr : HRESULT, 0 < ("COMPILE ERR CODE: " ++ format_x hr ++ "\n").length) ∧
    CompileVertexShader env src = ⟨(CompileShader env src "vs_5_0").trace, .halt .null_deref⟩ ∧
    CompilePixelShader env src = ⟨(CompileShader env src "ps_5_0").trace, .halt .null_deref⟩ := by
  refine ⟨?_, ?_, ?_, ?_, ?_, CompileVertexShader_none env src hvs_null,
    CompilePixelShader_none env src hps_null⟩
  · rw [CompileShader_res, hvs_null]
  · rw [CompileShader_res, hps_null]
  · rw [CompileShader_trace, if_pos hvs_failed]
    exact ⟨_, rfl⟩
  · rw [CompileShader_trace, if_pos hps_failed]
    exact ⟨_, rfl⟩
  · intro hr
    simp only [String.length_append]
    have : ("COMPILE ERR CODE: ").length = 18 := by decide
    omega

/-- C6, witness: a compiler that rejects the source with `E_FAIL` and a
diagnostic.  The run of `main` stops in `CompileVertexShader`. -/
theorem compile_failure_null_blob_dereferenced_witness :
    FAILED (env_compile_fails.D3DCompile "float4 main(" "vs_5_0").result = true ∧
    (env_compile_fails.D3DCompile "float4 main(" "vs_5_0").compiled_blob = none ∧
    CompileShader env_compile_fails "float4 main(" "vs_5_0"
      = ⟨[Call.D3DCompile "float4 main(" "main" "vs_5_0" 2049 0,
          Call.printf "COMPILE ERR CODE: 80004005\n",
          Call.printf "COMPILE ERROR error X3000: syntax error\n"], .ok none⟩ ∧
    (CompileVertexShader env_compile_fails "float4 main(").res = .halt .null_deref ∧
    (CompilePixelShader env_compile_fails "float4 main(").res = .halt .null_deref ∧
    (main env_compile_fails [[]]).res = .halt .null_deref :=
  have h := compile_failure_null_blob_dereferenced env_compile_fails "float4 main("
    (by decide) (by decide) (by decide) (by decide)
  ⟨by decide, by decide, by decide, by rw [h.2.2.2.2.2.1], by rw [h.2.2.2.2.2.2], by decide⟩

/-- C7.  When the file at a path cannot be opened, `ReadEntireFileAsString`
(through `OpenFile`) prints `FAILED TO OPEN FILE: ` followed by the path and
stops the process through `exit(EXIT_FAILURE)`, a nonzero status; it returns
no string.  In `main`, when the missing file is the vertex shader source the
compiler is never invoked at all, and when it is the pixel shader source the
compiler is never invoked for the pixel profile; in both cases `main` does not
return: the run stops at that `exit(EXIT_FAILURE)`, unless an earlier start-up
step has already stopped it (a failed assertion or, for the pixel shader, the
null dereference after a failed vertex shader compilation), and the process
does not end with status `0`. -/
theorem missing_shader_file_is_fatal (env : Env) (file : String)
    (batches : List (List SDL_Event)) (hmissing : env.fopen file = none) :
    ReadEntireFileAsString env file
      = ⟨[Call.fopen file "r", Call.printf ("FAILED TO OPEN FILE: " ++ file ++ "\n")],
          .halt (.exit EXIT_FAILURE)⟩ ∧
    EXIT_FAILURE ≠ 0 ∧
    (∀ text, (ReadEntireFileAsString env file).res ≠ .ok text) ∧
    (file = "shaders/VertexShader.hlsl" →
      (∀ src entry target flags1 flags2,
        Call.D3DCompile src entry target flags1 flags2 ∉ (main env batches).trace) ∧
      ((main env batches).res = .halt .abort ∨
        (main env batches).res = .halt (.exit EXIT_FAILURE)) ∧
      exit_status (main env batches).res ≠ some 0) ∧
    (file = "shaders/PixelShader.hlsl" →
      (∀ src entry flags1 flags2,
        Call.D3DCompile src entry "ps_5_0" flags1 flags2 ∉ (main env batches).trace) ∧
      ((main env batches).res = .halt .abort ∨ (main env batches).res = .halt .null_deref ∨
        (main env batches).res = .halt (.exit EXIT_FAILURE)) ∧
      exit_status (main env batches).res ≠ some 0) := by
  have hread := ReadEntireFileAsString_none env file hmissing
  have hmain : ∀ P H, (main_setup env).Within P H → (∀ w, (main_setup env).res ≠ .ok w) →
      (∀ c ∈ (main env batches).trace, P c) ∧ ∃ e, H e ∧ (main env batches).res = .halt e := by
    intro P H hW hne
    cases hr : (main_setup env).res with
    | ok w => exact absurd hr (hne w)
    | halt e =>
      rw [main_of_setup_halt env e batches hr]
      exact ⟨hW.1, e, hW.2 e hr, rfl⟩
  have hne : file = "shaders/VertexShader.hlsl" ∨ file = "shaders/PixelShader.hlsl" →
      ∀ w, (main_setup env).res ≠ .ok w := by
    intro hfile w hw
    obtain ⟨_, _, _, _, h1, _, h3, _⟩ := main_setup_ok env w hw
    rcases hfile with rfl | rfl
    · rw [hmissing] at h1
      cases h1
    · rw [hmissing] at h3
      cases h3
  refine ⟨hread, by decide, ?_, ?_, ?_⟩
  · intro text htext
    rw [hread] at htext
    cases htext
  · intro hfile
    obtain ⟨h1, e, he, hres⟩ := hmain _ _ (main_setup_missing_vertex env (hfile ▸ hmissing))
      (hne (Or.inl hfile))
    refine ⟨fun src entry target flags1 flags2 hmem => ?_, ?_, ?_⟩
    · have := h1 _ hmem
      simp [Call.is_compile] at this
    · rcases he with rfl | rfl
      · exact Or.inl hres
      · exact Or.inr hres
    · rw [hres]
      rcases he with rfl | rfl <;> decide
  · intro hfile
    obtain ⟨h1, e, he, hres⟩ := hmain _ _ (main_setup_missing_pixel env (hfile ▸ hmissing))
      (hne (Or.inr hfile))
    refine ⟨fun src entry flags1 flags2 hmem => ?_, ?_, ?_⟩
    · have := h1 _ hmem
      simp [Call.compiles] at this
    · rcases he with rfl | rfl | rfl
      · exact Or.inl hres
      · exact Or.inr (Or.inl hres)
      · exact Or.inr (Or.inr hres)
    · rw [hres]
      rcases he with rfl | rfl | rfl <;> decide

/-- C7, witness: the vertex shader file is present and the pixel shader file
is not; every other start-up step succeeds.  The run ends in
`exit(EXIT_FAILURE)` right after the diagnostic, the pixel profile never
having been compiled. -/
theorem missing_shader_file_is_fatal_witness :
    env_no_pixel_file.fopen "shaders/PixelShader.hlsl" = none ∧
    (∀ src entry flags1 flags2,
      Call.D3DCompile src entry "ps_5_0" flags1 flags2 ∉ (main env_no_pixel_file [[]]).trace) ∧
    (main env_no_pixel_file [[]]).res = .halt (.exit EXIT_FAILURE) ∧
    (main env_no_pixel_file [[]]).trace.getLast?
      = some (Call.printf "FAILED TO OPEN FILE: shaders/PixelShader.hlsl\n") ∧
    (main env_no_files [[]]).res = .halt (.exit EXIT_FAILURE) :=
  ⟨by decide,
   ((missing_shader_file_is_fatal env_no_pixel_file "shaders/PixelShader.hlsl" [[]]
      (by decide)).2.2.2.2 rfl).1,
   by decide, by decide, by decide⟩

/-- C8.  In every run of `main` in which start-up succeeds (the run reaches
the render loop), the graphics calls are, in order: device creation; the
twelve further calls of `InitGfx` (DXGI queries, swap-chain creation, views,
depth-stencil surface, viewport, rasterizer state); creation of the vertex
buffer and of the index buffer; compilation and creation of the vertex shader,
then of the pixel shader; creation of the input layout and the binding calls
(topology, input layout, vertex buffer, index buffer, vertex shader, pixel
shader); and only then the frames of the loop, four calls each.  The sequence
of stages of the calls of the whole run is this fixed start-up sequence
followed by loop calls only, and it is ordered: no call of a later stage
precedes a call of an earlier stage. -/
theorem initialization_order (env : Env) (w : Window) (batches : List (List SDL_Event))
    (hsetup : (main_setup env).res = .ok w) :
    (main env batches).trace.filterMap Call.stage
      = [Stage.device] ++ List.replicate 12 Stage.swap_chain ++ [Stage.buffers, Stage.buffers]
        ++ [Stage.vertex_shader, Stage.vertex_shader, Stage.pixel_shader, Stage.pixel_shader]
        ++ List.replicate 7 Stage.binding
        ++ List.replicate (4 * frames_drawn batches) Stage.loop ∧
    ((main env batches).trace.filterMap Call.stage).Pairwise (fun a b => a.rank ≤ b.rank) ∧
    ∃ vert_source vertex_blob pixel_source pixel_blob,
      gfx (main env batches).trace
        = [ Call.D3D11CreateDevice D3D_DRIVER_TYPE_HARDWARE
              (if env.DEBUG then D3D11_CREATE_DEVICE_DEBUG else 0) [D3D_FEATURE_LEVEL_11_1]
              D3D11_SDK_VERSION,
            .QueryInterface_IDXGIDevice,
            .GetParent_IDXGIAdapter,
            .GetParent_IDXGIFactory,
            .CreateSwapChain (swap_chain_desc env.hwnd w),
            .GetBuffer 0,
            .CreateRenderTargetView,
            .CreateTexture2D (depthStencilDesc w),
            .CreateDepthStencilView,
            .OMSetRenderTargets 1,
            .RSSetViewports 1 (viewport_of w),
            .CreateRasterizerState
              { FillMode := D3D11_FILL_SOLID, CullMode := D3D11_CULL_NONE,
                FrontCounterClockwise := true },
            .RSSetState,
            .CreateBuffer (buffer_desc 48 .IMMUTABLE D3D11_BIND_VERTEX_BUFFER 0 0 0)
              { pSysMem := .f32s [-1, -1, 0, 1, 1, -1, 0, 1, 0, 1, 0, 1] },
            .CreateBuffer (buffer_desc 12 .DEFAULT D3D11_BIND_INDEX_BUFFER 0 0 0)
              { pSysMem := .u32s [0, 1, 2] },
            .D3DCompile vert_source "main" "vs_5_0" (compile_flags env.DEBUG) 0,
            .CreateVertexShader vertex_blob,
            .D3DCompile pixel_source "main" "ps_5_0" (compile_flags env.DEBUG) 0,
            .CreatePixelShader pixel_blob,
            .CreateInputLayout input_element_desc 1 vertex_blob,
            .IASetPrimitiveTopology D3D11_PRIMITIVE_TOPOLOGY_TRIANGLELIST,
            .IASetInputLayout,
            .IASetVertexBuffers 0 1 triangle_vb 16 0,
            .IASetIndexBuffer triangle_ib .R32_UINT 0,
            .VSSetShader,
            .PSSetShader ]
          ++ (List.replicate (frames_drawn batches)
                [Call.ClearRenderTargetView [0, 0, 0, 1],
                 Call.ClearDepthStencilView D3D11_CLEAR_DEPTH 1 0,
                 Call.DrawIndexed 3 0 0,
                 Call.Present 1 0]).flatten := by
  obtain ⟨vs, vb, ps, pb, _, _, _, _, _, hgfx⟩ := main_setup_ok env w hsetup
  have hmain := gfx_main env w batches hsetup
  rw [hgfx] at hmain
  have hst : (main env batches).trace.filterMap Call.stage
      = setup_stages ++ List.replicate (4 * frames_drawn batches) Stage.loop := by
    rw [stage_of_gfx, hmain, List.filterMap_append, stage_setup_gfx_calls, stage_frames]
  refine ⟨hst, ?_, vs, vb, ps, pb, hmain⟩
  rw [hst, List.pairwise_append]
  refine ⟨by decide, ?_, ?_⟩
  · exact List.pairwise_replicate.mpr (Or.inr (le_refl _))
  · intro a _ b hb
    rw [List.eq_of_mem_replicate hb]
    cases a <;> decide

/-- C8, witness: every start-up call succeeds and two frames are drawn before
the quit event. -/
theorem initialization_order_witness :
    (main_setup env_ok).res = .ok ⟨1920, 1080, some 1⟩ ∧
    (main env_ok [[], [⟨0x200⟩], [⟨SDL_QUIT⟩]]).trace.filterMap Call.stage
      = [Stage.device] ++ List.replicate 12 Stage.swap_chain ++ [Stage.buffers, Stage.buffers]
        ++ [Stage.vertex_shader, Stage.vertex_shader, Stage.pixel_shader, Stage.pixel_shader]
        ++ List.replicate 7 Stage.binding
        ++ List.replicate (4 * frames_drawn [[], [⟨0x200⟩], [⟨SDL_QUIT⟩]]) Stage.loop ∧
    frames_drawn [[], [⟨0x200⟩], [⟨SDL_QUIT⟩]] = 2 :=
  ⟨by decide,
   (initialization_order env_ok ⟨1920, 1080, some 1⟩ [[], [⟨0x200⟩], [⟨SDL_QUIT⟩]]
      (by decide)).1,
   by decide⟩

/-- C9.  Once start-up has succeeded, let the first batch that holds a quit
event be the `k`-th, after `k - 1` quit-free batches (`before`).  Then `main`
returns `0`; its graphics calls are those of start-up followed by exactly
`k - 1` repetitions of the frame group (clear colour, clear depth, draw
indexed, present) and nothing more; no call issued by the loop is a creation,
binding or destruction call; the creation calls of the whole run are the
thirteen of start-up (device, swap chain, render-target view, depth-stencil
texture and view, rasterizer state, vertex buffer, index buffer, the two
shader compilations, vertex shader, pixel shader, input layout), each occurring
once, all before the first frame; and the only call after the loop is the
`SDL_DestroyWindow` of the destructor of `window`, on return from `main`. -/
theorem render_loop_no_resource_churn (env : Env) (w : Window)
    (before : List (List SDL_Event)) (batch : List SDL_Event) (later : List (List SDL_Event))
    (hsetup : (main_setup env).res = .ok w)
    (hbefore : ∀ b ∈ before, has_quit b = false)
    (hquit : has_quit batch = true) :
    (main env (before ++ batch :: later)).res = .ok 0 ∧
    gfx (main env (before ++ batch :: later)).trace
      = gfx (main_setup env).trace
        ++ (List.replicate before.length
              [Call.ClearRenderTargetView [0, 0, 0, 1],
               Call.ClearDepthStencilView D3D11_CLEAR_DEPTH 1 0,
               Call.DrawIndexed 3 0 0,
               Call.Present 1 0]).flatten ∧
    (main env (before ++ batch :: later)).trace
      = (main_setup env).trace ++ (main_loop (before ++ batch :: later)).trace
        ++ [Call.SDL_DestroyWindow w.sdl_window] ∧
    (∀ c ∈ (main_loop (before ++ batch :: later)).trace,
      c.is_creation = false ∧ c.is_binding = false ∧ c.is_destruction = false) ∧
    (∃ vert_source vertex_blob pixel_source pixel_blob,
      (main env (before ++ batch :: later)).trace.filter Call.is_creation
        = [ Call.D3D11CreateDevice D3D_DRIVER_TYPE_HARDWARE
              (if env.DEBUG then D3D11_CREATE_DEVICE_DEBUG else 0) [D3D_FEATURE_LEVEL_11_1]
              D3D11_SDK_VERSION,
            .CreateSwapChain (swap_chain_desc env.hwnd w),
            .CreateRenderTargetView,
            .CreateTexture2D (depthStencilDesc w),
            .CreateDepthStencilView,
            .CreateRasterizerState
              { FillMode := D3D11_FILL_SOLID, CullMode := D3D11_CULL_NONE,
                FrontCounterClockwise := true },
            .CreateBuffer (buffer_desc 48 .IMMUTABLE D3D11_BIND_VERTEX_BUFFER 0 0 0)
              { pSysMem := .f32s [-1, -1, 0, 1, 1, -1, 0, 1, 0, 1, 0, 1] },
            .CreateBuffer (buffer_desc 12 .DEFAULT D3D11_BIND_INDEX_BUFFER 0 0 0)
              { pSysMem := .u32s [0, 1, 2] },
            .D3DCompile vert_source "main" "vs_5_0" (compile_flags env.DEBUG) 0,
            .CreateVertexShader vertex_blob,
            .D3DCompile pixel_source "main" "ps_5_0" (compile_flags env.DEBUG) 0,
            .CreatePixelShader pixel_blob,
            .CreateInputLayout input_element_desc 1 vertex_blob ]) ∧
    ((main env (before ++ batch :: later)).trace.filter Call.is_creation).Nodup ∧
    (main env (before ++ batch :: later)).trace.filter Call.is_creation
      = (main_setup env).trace.filter Call.is_creation := by
  obtain ⟨hpend, happ⟩ := main_loop_append before (batch :: later) hbefore
  have hloopres : (main_loop (before ++ batch :: later)).res = .ok 0 := by
    rw [happ, main_loop_cons_quit batch later hquit]
  obtain ⟨hres, htrace⟩ := main_of_setup_ok env w (before ++ batch :: later) hsetup
  rw [hloopres, Res.elim_ok] at htrace
  have hloop := main_loop_not_setup_calls (before ++ batch :: later)
  have hloopcre : (main_loop (before ++ batch :: later)).trace.filter Call.is_creation = [] := by
    rw [List.filter_eq_nil_iff]
    intro c hc
    rw [(hloop c hc).1]
    decide
  have hcre : (main env (before ++ batch :: later)).trace.filter Call.is_creation
      = (main_setup env).trace.filter Call.is_creation := by
    rw [htrace, List.filter_append, List.filter_append, hloopcre]
    simp [Call.is_creation]
  obtain ⟨vs, vb, ps, pb, _, _, _, _, _, hgfx⟩ := main_setup_ok env w hsetup
  have hlist : (main_setup env).trace.filter Call.is_creation
      = [ Call.D3D11CreateDevice D3D_DRIVER_TYPE_HARDWARE
              (if env.DEBUG then D3D11_CREATE_DEVICE_DEBUG else 0) [D3D_FEATURE_LEVEL_11_1]
              D3D11_SDK_VERSION,
            .CreateSwapChain (swap_chain_desc env.hwnd w),
            .CreateRenderTargetView,
            .CreateTexture2D (depthStencilDesc w),
            .CreateDepthStencilView,
            .CreateRasterizerState
              { FillMode := D3D11_FILL_SOLID, CullMode := D3D11_CULL_NONE,
                FrontCounterClockwise := true },
            .CreateBuffer (buffer_desc 48 .IMMUTABLE D3D11_BIND_VERTEX_BUFFER 0 0 0)
              { pSysMem := .f32s [-1, -1, 0, 1, 1, -1, 0, 1, 0, 1, 0, 1] },
            .CreateBuffer (buffer_desc 12 .DEFAULT D3D11_BIND_INDEX_BUFFER 0 0 0)
              { pSysMem := .u32s [0, 1, 2] },
            .D3DCompile vs "main" "vs_5_0" (compile_flags env.DEBUG) 0,
            .CreateVertexShader vb,
            .D3DCompile ps "main" "ps_5_0" (compile_flags env.DEBUG) 0,
            .CreatePixelShader pb,
            .CreateInputLayout input_element_desc 1 vb ] := by
    rw [creation_of_gfx, hgfx]
    simp [setup_gfx_calls, Call.is_creation, List.filter_cons]
  refine ⟨by rw [hres, hloopres], ?_, htrace, hloop, ⟨vs, vb, ps, pb, by rw [hcre, hlist]⟩, ?_,
    hcre⟩
  · rw [gfx_main env w _ hsetup, frames_drawn_append before batch later hbefore hquit]
    rfl
  · rw [hcre, hlist]
    simp [buffer_desc]

/-- C9, witness: two frames, then a batch with the quit event, then a batch
that is never polled. -/
theorem render_loop_no_resource_churn_witness :
    (main_setup env_ok).res = .ok ⟨1920, 1080, some 1⟩ ∧
    (∀ b ∈ [[], [(⟨0x200⟩ : SDL_Event)]], has_quit b = false) ∧
    has_quit [⟨0x200⟩, ⟨SDL_QUIT⟩] = true ∧
    gfx (main env_ok ([[], [⟨0x200⟩]] ++ [⟨0x200⟩, ⟨SDL_QUIT⟩] :: [[⟨0x300⟩]])).trace
      = gfx (main_setup env_ok).trace
        ++ (List.replicate 2
              [Call.ClearRenderTargetView [0, 0, 0, 1],
               Call.ClearDepthStencilView D3D11_CLEAR_DEPTH 1 0,
               Call.DrawIndexed 3 0 0,
               Call.Present 1 0]).flatten :=
  ⟨by decide, by decide, by decide,
   (render_loop_no_resource_churn env_ok ⟨1920, 1080, some 1⟩ [[], [⟨0x200⟩]]
      [⟨0x200⟩, ⟨SDL_QUIT⟩] [[⟨0x300⟩]] (by decide) (by decide) (by decide)).2.1⟩

/-- C10.  In every run of `main` in which start-up succeeds: exactly two
buffers are created, the vertex buffer from the 12 floats
`-1 -1 0 1, 1 -1 0 1, 0 1 0 1` (48 bytes) and the index buffer from the 3
indices `0 1 2` (12 bytes); the buffer bound as vertex buffer is that vertex
buffer, at stride 16 and offset 0, where 16 is the byte size of the single
`POSITION` element (four 32-bit floats) of the only input layout created, so
it holds exactly 3 vertices; the buffer bound as index buffer is that index
buffer, as 32-bit indices at offset 0; every `DrawIndexed` call draws 3
indices from start index 0 with base vertex 0, the number of indices the bound
index buffer holds; and every index value the bound index buffer holds is
below the number of vertices the bound vertex buffer holds. -/
theorem triangle_data_consistent (env : Env) (w : Window) (batches : List (List SDL_Event))
    (hsetup : (main_setup env).res = .ok w) :
    (Call.CreateBuffer
        { ByteWidth := 48, Usage := .IMMUTABLE, BindFlags := D3D11_BIND_VERTEX_BUFFER,
          CPUAccessFlags := 0, MiscFlags := 0, StructureByteStride := 0 }
        { pSysMem := .f32s [-1, -1, 0, 1, 1, -1, 0, 1, 0, 1, 0, 1] }
      ∈ (main env batches).trace ∧
     Call.CreateBuffer
        { ByteWidth := 12, Usage := .DEFAULT, BindFlags := D3D11_BIND_INDEX_BUFFER,
          CPUAccessFlags := 0, MiscFlags := 0, StructureByteStride := 0 }
        { pSysMem := .u32s [0, 1, 2] }
      ∈ (main env batches).trace ∧
     ∀ desc init, Call.CreateBuffer desc init ∈ (main env batches).trace →
      (desc.BindFlags = D3D11_BIND_VERTEX_BUFFER ∧ desc.ByteWidth = 48 ∧
        init.pSysMem = .f32s [-1, -1, 0, 1, 1, -1, 0, 1, 0, 1, 0, 1]) ∨
      (desc.BindFlags = D3D11_BIND_INDEX_BUFFER ∧ desc.ByteWidth = 12 ∧
        init.pSysMem = .u32s [0, 1, 2])) ∧
    ((∃ vb, Call.IASetVertexBuffers 0 1 vb 16 0 ∈ (main env batches).trace) ∧
     (∃ ib, Call.IASetIndexBuffer ib .R32_UINT 0 ∈ (main env batches).trace) ∧
     (∃ blob, Call.CreateInputLayout
        [{ SemanticName := "POSITION", SemanticIndex := 0, Format := .R32G32B32A32_FLOAT,
           InputSlot := 0, AlignedByteOffset := 0, InputSlotClass := D3D11_INPUT_PER_VERTEX_DATA,
           InstanceDataStepRate := 0 }] 1 blob ∈ (main env batches).trace)) ∧
    (∀ descs num blob, Call.CreateInputLayout descs num blob ∈ (main env batches).trace →
      num = 1 ∧
      descs.map (fun d => (d.SemanticName, d.Format, d.InputSlot, d.AlignedByteOffset))
        = [("POSITION", DXGI_FORMAT.R32G32B32A32_FLOAT, 0, 0)] ∧
      (descs.map (fun d => d.Format.bytes)).sum = 16) ∧
    (∀ slot num vb s o, Call.IASetVertexBuffers slot num vb s o ∈ (main env batches).trace →
      Call.CreateBuffer vb.desc vb.initial ∈ (main env batches).trace ∧
      vb.desc.BindFlags = D3D11_BIND_VERTEX_BUFFER ∧
      slot = 0 ∧ num = 1 ∧ s = 16 ∧ o = 0 ∧
      ∃ vertices, vb.initial.pSysMem = .f32s vertices ∧
        vertices.length = 12 ∧
        vb.desc.ByteWidth = vertices.length * sizeof_f32 ∧
        vb.desc.ByteWidth = 48 ∧
        vb.desc.ByteWidth = 3 * s) ∧
    (∀ ib format o, Call.IASetIndexBuffer ib format o ∈ (main env batches).trace →
      Call.CreateBuffer ib.desc ib.initial ∈ (main env batches).trace ∧
      ib.desc.BindFlags = D3D11_BIND_INDEX_BUFFER ∧
      format = .R32_UINT ∧ format.bytes = sizeof_u32 ∧ o = 0 ∧
      ∃ indices, ib.initial.pSysMem = .u32s indices ∧
        indices.length = 3 ∧
        ib.desc.ByteWidth = indices.length * format.bytes ∧
        ib.desc.ByteWidth = 12 ∧
        (∀ count start base,
          Call.DrawIndexed count start base ∈ (main env batches).trace →
            count = indices.length ∧ start = 0 ∧ base = 0) ∧
        (∀ slot num vb s vo,
          Call.IASetVertexBuffers slot num vb s vo ∈ (main env batches).trace →
            ∀ i ∈ indices, i < vb.desc.ByteWidth / s)) := by
  obtain ⟨vs, vblob, ps, pb, hin, hout⟩ := mem_main_trace env w batches hsetup
  have hvb : ∀ slot num vb s o,
      Call.IASetVertexBuffers slot num vb s o ∈ (main env batches).trace →
      slot = 0 ∧ num = 1 ∧ vb = triangle_vb ∧ s = 16 ∧ o = 0 := by
    intro slot num vb s o hmem
    rcases hout _ hmem rfl with h1 | h1
    · simpa [setup_gfx_calls] using h1
    · simp [frame_calls] at h1
  have hib : ∀ ib format o,
      Call.IASetIndexBuffer ib format o ∈ (main env batches).trace →
      ib = triangle_ib ∧ format = .R32_UINT ∧ o = 0 := by
    intro ib format o hmem
    rcases hout _ hmem rfl with h1 | h1
    · simpa [setup_gfx_calls] using h1
    · simp [frame_calls] at h1
  have hdraw : ∀ count start base,
      Call.DrawIndexed count start base ∈ (main env batches).trace →
      count = 3 ∧ start = 0 ∧ base = 0 := by
    intro count start base hmem
    rcases hout _ hmem rfl with h1 | h1
    · simp [setup_gfx_calls] at h1
    · simpa [frame_calls] using h1
  have hcvb : Call.CreateBuffer triangle_vb.desc triangle_vb.initial
      ∈ (main env batches).trace := hin _ (by simp [setup_gfx_calls, triangle_vb])
  have hcib : Call.CreateBuffer triangle_ib.desc triangle_ib.initial
      ∈ (main env batches).trace := hin _ (by simp [setup_gfx_calls, triangle_ib])
  refine ⟨⟨hcvb, hcib, ?_⟩, ⟨⟨triangle_vb, hin _ (by simp [setup_gfx_calls])⟩,
    ⟨triangle_ib, hin _ (by simp [setup_gfx_calls])⟩,
    ⟨vblob, hin _ (by simp [setup_gfx_calls, input_element_desc])⟩⟩, ?_, ?_, ?_⟩
  · intro desc init hmem
    rcases hout _ hmem rfl with h1 | h1
    · simp only [setup_gfx_calls, List.mem_cons, List.mem_singleton, List.not_mem_nil,
        Call.CreateBuffer.injEq, reduceCtorEq, false_or, or_false] at h1
      rcases h1 with ⟨rfl, rfl⟩ | ⟨rfl, rfl⟩
      · exact Or.inl ⟨rfl, rfl, rfl⟩
      · exact Or.inr ⟨rfl, rfl, rfl⟩
    · simp [frame_calls] at h1
  · intro descs num blob hmem
    rcases hout _ hmem rfl with h1 | h1
    · simp only [setup_gfx_calls, List.mem_cons, List.mem_singleton, List.not_mem_nil,
        Call.CreateInputLayout.injEq, reduceCtorEq, false_or, or_false] at h1
      obtain ⟨rfl, rfl, _⟩ := h1
      exact ⟨rfl, rfl, rfl⟩
    · simp [frame_calls] at h1
  · intro slot num vb s o hmem
    obtain ⟨rfl, rfl, rfl, rfl, rfl⟩ := hvb _ _ _ _ _ hmem
    exact ⟨hcvb, rfl, rfl, rfl, rfl, rfl, _, rfl, rfl, rfl, rfl, rfl⟩
  · intro ib format o hmem
    obtain ⟨rfl, rfl, rfl⟩ := hib _ _ _ hmem
    refine ⟨hcib, rfl, rfl, rfl, rfl, _, rfl, rfl, rfl, rfl, hdraw, ?_⟩
    intro slot num vb s vo hmem2
    obtain ⟨_, _, rfl, rfl, _⟩ := hvb _ _ _ _ _ hmem2
    decide

/-- C10, witness: every start-up call succeeds and one frame is drawn. -/
theorem triangle_data_consistent_witness :
    (main_setup env_ok).res = .ok ⟨1920, 1080, some 1⟩ ∧
    Call.DrawIndexed 3 0 0 ∈ (main env_ok [[], [⟨SDL_QUIT⟩]]).trace ∧
    (∀ descs num blob,
      Call.CreateInputLayout descs num blob ∈ (main env_ok [[], [⟨SDL_QUIT⟩]]).trace →
      num = 1 ∧
      descs.map (fun d => (d.SemanticName, d.Format, d.InputSlot, d.AlignedByteOffset))
        = [("POSITION", DXGI_FORMAT.R32G32B32A32_FLOAT, 0, 0)] ∧
      (descs.map (fun d => d.Format.bytes)).sum = 16) :=
  have h := triangle_data_consistent env_ok ⟨1920, 1080, some 1⟩ [[], [⟨SDL_QUIT⟩]] (by decide)
  ⟨by decide, by decide, h.2.2.1⟩

end VoxelExperiments
